import Mathlib

/-!
Verification development for the Solar-System-Live repository (Node/Express
server exposing NASA JPL Horizons state vectors with a snapshot cache).

The definitions below are a shallow embedding of the server source:
  * `server/src/nasa/horizonsClient.ts` (upstream response parsing),
  * `server/src/cache/ephemerisCache.ts` (snapshot cache engine),
  * `server/src/routes/ephemeris.ts` and the route handler compiled into
    `server/dist/routes/ephemeris.js` (HTTP facade),
  * `server/src/routes/voyagers.ts` (derived probe computations),
  * `server/src/config/planets.ts`, `server/src/config/voyagers.ts` (catalog).

JavaScript numbers are modelled exactly where the code computes exactly
(rational arithmetic); `NaN` is modelled explicitly; `undefined` fields are
`Option`; epoch-millisecond timestamps are `Int`; the irrational value
`Math.sqrt s` is carried symbolically (see `SymReal`) because every claim
about it only depends on nullness/zeroness, which `sqrt` preserves.
-/

/-! ## JavaScript number model -/

/-- A JavaScript number as produced by the code under study: either `NaN`
or an exact (finite) value.  Infinities do not arise in the modelled paths
and are not represented. -/
inductive JsNum where
  | nan
  | num (q : ℚ)
deriving DecidableEq, Repr

def JsNum.isFinite : JsNum → Bool
  | .nan => false
  | .num _ => true

/-- JS truthiness of a number: `0` and `NaN` are falsy. -/
def JsNum.truthy : JsNum → Bool
  | .nan => false
  | .num q => decide (q ≠ 0)

def jsAdd : JsNum → JsNum → JsNum
  | .num a, .num b => .num (a + b)
  | _, _ => .nan

def jsSub : JsNum → JsNum → JsNum
  | .num a, .num b => .num (a - b)
  | _, _ => .nan

def jsMul : JsNum → JsNum → JsNum
  | .num a, .num b => .num (a * b)
  | _, _ => .nan

/-- Division; only used with nonzero rational divisors in the embedded code
(the divisors are the fixed unit constants), so the `b = 0` case is moot. -/
def jsDiv : JsNum → JsNum → JsNum
  | .num a, .num b => if b = 0 then .nan else .num (a / b)
  | _, _ => .nan

/-! ## String scanning utilities (regex fragments used by the parser)

`horizonsClient.ts` uses `indexOf`, `slice`, `String#match` with the
character-class patterns `/X\s*=\s*([-+\d.Ee]+)/` and
`/Output units\s*:\s*([^\n]+)/`, `parseFloat`, `toUpperCase`, `includes`,
`trim` and `split` on newlines.  Each is given an executable counterpart. -/

/-- Index of the first occurrence of `pat` in `s` (JS `String#indexOf`,
with `none` for `-1`). -/
def findIdx (pat : List Char) : List Char → Option Nat
  | [] => if pat = [] then some 0 else none
  | c :: rest =>
    if pat.isPrefixOf (c :: rest) then some 0
    else (findIdx pat rest).map (· + 1)

def containsSub (pat : List Char) (s : List Char) : Bool :=
  (findIdx pat s).isSome

def skipWsChars : List Char → List Char
  | [] => []
  | c :: rest => if c.isWhitespace then skipWsChars rest else c :: rest

def dropLit (lit : List Char) (cs : List Char) : Option (List Char) :=
  if lit.isPrefixOf cs then some (cs.drop lit.length) else none

/-- Characters of the tolerant numeric class `[-+\d.Ee]`. -/
def isNumClassChar (c : Char) : Bool :=
  c = '-' || c = '+' || c.isDigit || c = '.' || c = 'E' || c = 'e'

/-- Try to match `label\s*=\s*([-+\d.Ee]+)` at the head of `cs`, returning
the captured group. -/
def matchNumAt (label : List Char) (cs : List Char) : Option (List Char) := do
  let r1 ← dropLit label cs
  let r2 := skipWsChars r1
  let r3 ← dropLit ['='] r2
  let r4 := skipWsChars r3
  let cap := r4.takeWhile isNumClassChar
  if cap = [] then none else some cap

/-- Leftmost match of `label\s*=\s*([-+\d.Ee]+)` (JS `String#match` with a
non-global regex returns the first match). -/
def scanNum (label : List Char) : List Char → Option (List Char)
  | [] => none
  | c :: rest =>
    match matchNumAt label (c :: rest) with
    | some cap => some cap
    | none => scanNum label rest

/-- Try to match `Output units\s*:\s*([^\n]+)` at the head of `cs`. -/
def matchUnitsAt (cs : List Char) : Option (List Char) := do
  let r1 ← dropLit "Output units".data cs
  let r2 := skipWsChars r1
  let r3 ← dropLit [':'] r2
  let r4 := skipWsChars r3
  let cap := r4.takeWhile (· ≠ '\n')
  if cap = [] then none else some cap

def scanUnits : List Char → Option (List Char)
  | [] => none
  | c :: rest =>
    match matchUnitsAt (c :: rest) with
    | some cap => some cap
    | none => scanUnits rest

def digitsToNat (ds : List Char) : Nat :=
  ds.foldl (fun a c => a * 10 + (c.toNat - '0'.toNat)) 0

/-- JS `parseFloat` on the character data of a string: optional leading
whitespace and sign, decimal digits with optional fraction, optional
exponent (ignored when it has no digits, as in JS); `none` models `NaN`. -/
def parseFloatChars (cs : List Char) : Option ℚ :=
  let cs1 := skipWsChars cs
  let (sign, cs2) : ℚ × List Char :=
    match cs1 with
    | '+' :: r => (1, r)
    | '-' :: r => (-1, r)
    | r => (1, r)
  let ip := cs2.takeWhile Char.isDigit
  let cs3 := cs2.drop ip.length
  let (fp, cs4) : List Char × List Char :=
    match cs3 with
    | '.' :: r => (r.takeWhile Char.isDigit, r.drop (r.takeWhile Char.isDigit).length)
    | r => ([], r)
  if ip = [] ∧ fp = [] then none
  else
    let mant : ℚ := (digitsToNat ip : ℚ) + (digitsToNat fp : ℚ) / ((10 : ℚ) ^ fp.length)
    let expo : ℤ :=
      match cs4 with
      | e :: r =>
        if e = 'e' ∨ e = 'E' then
          let (es, r2) : ℤ × List Char :=
            match r with
            | '+' :: rr => (1, rr)
            | '-' :: rr => (-1, rr)
            | rr => (1, rr)
          let ed := r2.takeWhile Char.isDigit
          if ed = [] then 0 else es * (digitsToNat ed : ℤ)
        else 0
      | [] => 0
    some (sign * mant * (10 : ℚ) ^ expo)

def parseFloatJs (s : String) : JsNum :=
  match parseFloatChars s.data with
  | some q => .num q
  | none => .nan

def upperString (s : String) : String := String.mk (s.data.map Char.toUpper)

/-! ## Horizons client (`server/src/nasa/horizonsClient.ts`)

`fetchPlanetStateVector` performs an HTTP GET and then parses
`response.data`.  The pure post-response phase is embedded here; the
transport itself (axios) is out of the model, so the function takes the
already-received `HorizonsData` and the current ISO timestamp string that
`new Date().toISOString()` would produce. -/

/-- A state vector as returned by `fetchPlanetStateVector`. -/
structure PlanetStateVector where
  name : String
  x_au : JsNum
  y_au : JsNum
  z_au : JsNum
  vx_au_per_day : Option JsNum
  vy_au_per_day : Option JsNum
  vz_au_per_day : Option JsNum
  velocityUnit : Option String
  referenceFrame : Option String
  source : Option String
  timestamp : String
deriving DecidableEq, Repr

/-- One entry of the legacy `result.vectors` array; all numeric fields are
strings on the wire, optional fields may be absent. -/
structure StructuredVec where
  X : Option String
  Y : Option String
  Z : Option String
  VX : Option String
  VY : Option String
  VZ : Option String
  calendar_date : Option String
deriving DecidableEq, Repr

/-- The dynamic shapes of `response.data` that `fetchPlanetStateVector`
distinguishes at runtime: a `result.vectors` array, a string `result`
field, a bare string body, or anything else. -/
inductive HorizonsData where
  | structured (vectors : List StructuredVec)
  | textResult (result : String)
  | rawText (text : String)
  | invalid
deriving DecidableEq, Repr

/-- Constant `AU_IN_KM`: `1 AU = 149 597 870.7 km`. -/
def AU_IN_KM : ℚ := 1495978707 / 10

/-- Constant `SECONDS_PER_DAY`. -/
def SECONDS_PER_DAY : ℚ := 86400

def soePat : List Char := "$$SOE".data
def eoePat : List Char := "$$EOE".data

/-- The `$$SOE`/`$$EOE` block: `resultText.slice(soeIndex, eoeIndex)`,
`none` when a marker is missing or `eoeIndex <= soeIndex`. -/
def soeBlock (resultText : String) : Option (List Char) :=
  match findIdx soePat resultText.data, findIdx eoePat resultText.data with
  | some si, some ei =>
    if ei ≤ si then none
    else some ((resultText.data.drop si).take (ei - si))
  | _, _ => none

/-- The `rawUnit` detection: the capture of `/Output units\s*:\s*([^\n]+)/`,
trimmed. -/
def detectRawUnit (resultText : String) : Option String :=
  (scanUnits resultText.data).map (fun cap => (String.mk cap).trim)

/-- Whether `rawUnit?.toUpperCase().includes("KM")`. -/
def kmDetected (resultText : String) : Bool :=
  match detectRawUnit resultText with
  | some u => containsSub "KM".data (upperString u).data
  | none => false

/-- Function `toAu`: divide by `AU_IN_KM` when the declared position unit is `KM`. -/
def toAu (km : Bool) (v : JsNum) : JsNum :=
  if km then jsDiv v (.num AU_IN_KM) else v

/-- Function `toAuPerDay`: `(vx * SECONDS_PER_DAY) / AU_IN_KM` when the declared
velocity unit is `KM/S`, identity otherwise. -/
def toAuPerDay (km : Bool) (v : JsNum) : JsNum :=
  if km then jsDiv (jsMul v (.num SECONDS_PER_DAY)) (.num AU_IN_KM) else v

/-- First line of the block that has nonempty trim and does not contain
`$$SOE`, trimmed, with the `|| nowIso` fallback. -/
def timestampOfBlock (block : List Char) (nowIso : String) : String :=
  match ((String.mk block).splitOn "\n").find?
      (fun line => line.trim.length ≠ 0 && !containsSub soePat line.data) with
  | some line => if line.trim = "" then nowIso else line.trim
  | none => nowIso

/-- Function `parseVectorFromResult` from `horizonsClient.ts`: parse the embedded
text shape between the `$$SOE`/`$$EOE` sentinels.  Matched `X/Y/Z` values
are converted and returned without any finiteness check. -/
def parseVectorFromResult (name nowIso resultText : String) :
    Except String PlanetStateVector :=
  match soeBlock resultText with
  | none => .error "Réponse Horizons sans bloc SOE/EOE"
  | some block =>
    match scanNum ['X'] block, scanNum ['Y'] block, scanNum ['Z'] block with
    | some mx, some my, some mz =>
      let km := kmDetected resultText
      .ok {
        name := name
        x_au := toAu km (parseFloatJs (String.mk mx))
        y_au := toAu km (parseFloatJs (String.mk my))
        z_au := toAu km (parseFloatJs (String.mk mz))
        vx_au_per_day := (scanNum "VX".data block).map
          (fun m => toAuPerDay km (parseFloatJs (String.mk m)))
        vy_au_per_day := (scanNum "VY".data block).map
          (fun m => toAuPerDay km (parseFloatJs (String.mk m)))
        vz_au_per_day := (scanNum "VZ".data block).map
          (fun m => toAuPerDay km (parseFloatJs (String.mk m)))
        velocityUnit := some "AU/day"
        referenceFrame := some "J2000-ECLIPTIC"
        source := some "NASA-JPL-Horizons"
        timestamp := timestampOfBlock block nowIso }
    | _, _, _ => .error "Coordonnées X/Y/Z manquantes dans la réponse Horizons"

/-- Structured-shape branch of `fetchPlanetStateVector`: parse the first
entry of `result.vectors`.  `parseFloat(undefined)` is `NaN`; the
finiteness of `X/Y/Z` is checked and each velocity component is kept only
when it parses to a finite number. -/
def parseStructuredVec (name nowIso : String) (vec : StructuredVec) :
    Except String PlanetStateVector :=
  let x := match vec.X with | some s => parseFloatJs s | none => JsNum.nan
  let y := match vec.Y with | some s => parseFloatJs s | none => JsNum.nan
  let z := match vec.Z with | some s => parseFloatJs s | none => JsNum.nan
  let vx := vec.VX.map parseFloatJs
  let vy := vec.VY.map parseFloatJs
  let vz := vec.VZ.map parseFloatJs
  if x.isFinite && y.isFinite && z.isFinite then
    .ok {
      name := name
      x_au := x
      y_au := y
      z_au := z
      vx_au_per_day := match vx with
        | some v => if v.isFinite then some v else none
        | none => none
      vy_au_per_day := match vy with
        | some v => if v.isFinite then some v else none
        | none => none
      vz_au_per_day := match vz with
        | some v => if v.isFinite then some v else none
        | none => none
      velocityUnit := some "AU/day"
      referenceFrame := some "J2000-ECLIPTIC"
      source := some "NASA-JPL-Horizons"
      timestamp := match vec.calendar_date with
        | some s => if s = "" then nowIso else s
        | none => nowIso }
  else .error "Vecteur Horizons invalide (X, Y, Z)"

/-- The parse phase of `fetchPlanetStateVector` on the received body:
try the structured shape, then the embedded-text shape, else fail with
the invalid-response error. -/
def fetchParsePhase (name nowIso : String) (data : HorizonsData) :
    Except String PlanetStateVector :=
  match data with
  | .structured (vec :: _) => parseStructuredVec name nowIso vec
  | .structured [] => .error "Réponse Horizons invalide ou vide"
  | .textResult t => parseVectorFromResult name nowIso t
  | .rawText t => parseVectorFromResult name nowIso t
  | .invalid => .error "Réponse Horizons invalide ou vide"

/-! ## Catalog (`server/src/config/planets.ts`, `server/src/config/voyagers.ts`) -/

structure PlanetConfig where
  name : String
  displayName : String
  horizonsId : String
deriving DecidableEq, Repr

def PLANETS : List PlanetConfig := [
  ⟨"mercury", "Mercure", "199"⟩,
  ⟨"venus", "Vénus", "299"⟩,
  ⟨"earth", "Terre", "399"⟩,
  ⟨"mars", "Mars", "499"⟩,
  ⟨"jupiter", "Jupiter", "599"⟩,
  ⟨"saturn", "Saturne", "699"⟩,
  ⟨"uranus", "Uranus", "799"⟩,
  ⟨"neptune", "Neptune", "899"⟩,
  ⟨"pluto", "Pluton", "999"⟩]

structure VoyagerConfig where
  id : String
  displayName : String
  horizonsId : String
deriving DecidableEq, Repr

def VOYAGERS : List VoyagerConfig := [
  ⟨"voyager1", "Voyager 1", "-31"⟩,
  ⟨"voyager2", "Voyager 2", "-32"⟩]

/-! ## Snapshot cache engine (`server/src/cache/ephemerisCache.ts`)

Epoch milliseconds are `Int`.  `Date#toISOString` is opaque to every claim,
so timestamps rendered from epoch millis use an injective stand-in
`isoString`.  The Redis tier is modelled by its key content plus a liveness
flag (`redisReady` resolving to a client); serialization is the identity on
records because `JSON.parse ∘ JSON.stringify` is on this data. -/

def isoString (t : Int) : String := toString t

structure SnapshotMetadata where
  source : Option String
  referenceFrame : Option String
  distanceUnit : Option String
  velocityUnit : Option String
  responseTimeMs : Option Int
  cacheStatus : Option String
  cacheBackend : Option String
  cacheAgeMs : Option Int
  cacheExpiresInMs : Option Int
  cacheStale : Option Bool
  generatedAt : Option String
  frozenSnapshot : Option Bool
  freezeReason : Option String
  requestId : Option String
deriving DecidableEq, Repr

/-- One body entry of an `EphemerisSnapshot` payload. -/
structure EphemerisBody where
  name : String
  x_au : JsNum
  y_au : JsNum
  z_au : JsNum
  vx : Option JsNum
  vy : Option JsNum
  vz : Option JsNum
  velocityUnit : Option String
deriving DecidableEq, Repr

structure EphemerisSnapshot where
  timestamp : String
  metadata : SnapshotMetadata
  bodies : List EphemerisBody
deriving DecidableEq, Repr

structure CacheRecord where
  payload : EphemerisSnapshot
  cachedAt : Int
  expiresAt : Int
  staleUntil : Int
deriving DecidableEq, Repr

inductive CacheState where
  | HIT
  | MISS
  | STALE
  | FROZEN
deriving DecidableEq, Repr

def cacheStateString : CacheState → String
  | .HIT => "HIT"
  | .MISS => "MISS"
  | .STALE => "STALE"
  | .FROZEN => "FROZEN"

structure SnapshotResult where
  payload : EphemerisSnapshot
  cacheState : CacheState
  cacheBackend : String
  cacheAgeMs : Int
deriving DecidableEq, Repr

/-- Constants `CACHE_TTL_MS` and `STALE_WHILE_REVALIDATE_MS` (env-configurable,
defaults `120000` and `ttl / 2`). -/
structure CacheConfig where
  ttl : Int
  sw : Int
deriving DecidableEq, Repr

def defaultCacheConfig : CacheConfig := ⟨120000, 60000⟩

/-- The two storage tiers: module-level `memoryCache` and the Redis key
`ephemeris:planets:v1` (`redisLive` models a connected client, i.e.
`getRedisClient()` returning non-null). -/
structure Store where
  redisLive : Bool
  redis : Option CacheRecord
  memory : Option CacheRecord
deriving DecidableEq, Repr

/-- A JS error as observed by `err?.message`: the message may be absent
(`undefined`) or any string, including the empty string. -/
structure JsError where
  message : Option String
deriving DecidableEq, Repr

/-- Function `readCache()`: try Redis first and mirror a found record into the
memory tier, else fall back to the memory tier. -/
def readCache (st : Store) : Option CacheRecord × Store :=
  match st.redisLive, st.redis with
  | true, some r => (some r, { st with memory := some r })
  | _, _ => (st.memory, st)

/-- Function `writeCache(record, backend)`: always write the memory tier; write the
Redis key (serialized) when the client is live and `backend === "redis"`. -/
def writeCache (st : Store) (record : CacheRecord) (backend : String) : Store :=
  let st1 := { st with memory := some record }
  if st1.redisLive ∧ backend = "redis" then { st1 with redis := some record } else st1

/-- The expression `(await getRedisClient()) ? "redis" : "memory"`. -/
def backendOf (st : Store) : String :=
  if st.redisLive then "redis" else "memory"

instance {ε α : Type} [DecidableEq ε] [DecidableEq α] : DecidableEq (Except ε α) :=
  fun a b =>
    match a, b with
    | .ok x, .ok y =>
      if h : x = y then .isTrue (by rw [h]) else .isFalse (by intro hc; cases hc; exact h rfl)
    | .error x, .error y =>
      if h : x = y then .isTrue (by rw [h]) else .isFalse (by intro hc; cases hc; exact h rfl)
    | .ok _, .error _ => .isFalse (by intro hc; cases hc)
    | .error _, .ok _ => .isFalse (by intro hc; cases hc)

/-- The outcome of one refresh: what `buildPlanetSnapshot` resolves to (or
rejects with), the `Date.now()` observed right after the fan-out, and the
reason/correlation id the refresh was started with. -/
structure RefreshTask where
  build : Except JsError EphemerisSnapshot
  time : Int
  reason : String
  correlationId : Option String
deriving DecidableEq, Repr

/-- Function `refreshSnapshot(reason, correlationId)`.  On success the new record is
stored, and then `payload.metadata` is reassigned with the MISS decoration.
Since `record.payload` and the local `payload` are one JS object, that
reassignment is visible through the memory-tier entry written just before,
while the Redis copy was serialized by `writeCache` before the mutation and
keeps the original metadata. -/
def refreshSnapshot (cfg : CacheConfig) (st : Store) (task : RefreshTask) :
    Except JsError SnapshotResult × Store :=
  let backend := backendOf st
  match task.build with
  | .error e => (.error e, st)
  | .ok payload0 =>
    let now := task.time
    let record0 : CacheRecord :=
      { payload := payload0
        cachedAt := now
        expiresAt := now + cfg.ttl
        staleUntil := now + cfg.ttl + cfg.sw }
    let st1 := writeCache st record0 backend
    let payload1 : EphemerisSnapshot :=
      { payload0 with metadata :=
        { payload0.metadata with
            cacheStatus := some "MISS"
            cacheBackend := some backend
            cacheAgeMs := some 0
            cacheExpiresInMs := some cfg.ttl
            cacheStale := some false
            generatedAt := some (isoString now)
            requestId := task.correlationId } }
    let st2 := { st1 with memory := some { record0 with payload := payload1 } }
    (.ok { payload := payload1, cacheState := .MISS, cacheBackend := backend,
           cacheAgeMs := 0 }, st2)

/-- Function `decoratePayloadMetadata`: returns a new snapshot object; `wallNow`
stands for the `Date.now()` read inside the `generatedAt` fallback. -/
def decoratePayloadMetadata (payload : EphemerisSnapshot) (cacheState : CacheState)
    (backend : String) (cacheAgeMs : Int) (correlationId : Option String)
    (wallNow : Int) (cfg : CacheConfig) : EphemerisSnapshot :=
  let base := payload.metadata
  { payload with metadata :=
    { base with
        cacheStatus := some (cacheStateString cacheState)
        cacheBackend := some backend
        cacheAgeMs := some cacheAgeMs
        cacheExpiresInMs := some (max 0 (cfg.ttl - cacheAgeMs))
        cacheStale := some (cacheState = CacheState.STALE)
        requestId := correlationId <|> base.requestId
        generatedAt := some (base.generatedAt.getD (isoString (wallNow - cacheAgeMs))) } }

structure GetOptions where
  forceRefresh : Bool
  correlationId : Option String
deriving DecidableEq, Repr

/-- The refresh whose promise `getSnapshot` awaits: the pre-existing
inflight handle if any, else a new `refreshSnapshot` started with reason
`manual-refresh`/`miss` and the correlation id of the caller (`newTask`
supplies the build outcome and completion time of that new refresh). -/
def effectiveTask (opts : GetOptions) (inflight : Option RefreshTask)
    (newTask : RefreshTask) : RefreshTask :=
  match inflight with
  | some t => t
  | none =>
    { newTask with
        reason := if opts.forceRefresh then "manual-refresh" else "miss"
        correlationId := opts.correlationId }

/-- Result of one `getSnapshot` call: the resolved/rejected value, the
store afterwards, whether the call awaited a refresh, and whether it
spawned an asynchronous stale-revalidate refresh. -/
structure GetOut where
  result : Except JsError SnapshotResult
  store : Store
  refreshAwaited : Bool
  staleSpawned : Bool
deriving DecidableEq, Repr

/-- The `try { await inflightPromise } catch ... finally ...` part of
`getSnapshot`: await the effective refresh; on success decorate its
payload; on failure look up `memoryCache ?? (await readCache())` and either
serve it as `FROZEN` or rethrow.  `st1` is the store after the optional
initial read; `backend` is the one computed at `getSnapshot` entry. -/
def awaitRefresh (cfg : CacheConfig) (opts : GetOptions) (st1 : Store)
    (inflight : Option RefreshTask) (newTask : RefreshTask) (now : Int)
    (backend : String) : GetOut :=
  let task := effectiveTask opts inflight newTask
  let run := refreshSnapshot cfg st1 task
  match run.1 with
  | .ok r =>
    let payload := decoratePayloadMetadata r.payload r.cacheState r.cacheBackend
      r.cacheAgeMs (opts.correlationId <|> r.payload.metadata.requestId) now cfg
    { result := .ok { r with payload := payload }, store := run.2,
      refreshAwaited := true, staleSpawned := false }
  | .error e =>
    let lookup : Option CacheRecord × Store :=
      match run.2.memory with
      | some m => (some m, run.2)
      | none => readCache run.2
    match lookup.1 with
    | some cached =>
      let cacheAgeMs := now - cached.cachedAt
      let p0 := decoratePayloadMetadata cached.payload .FROZEN backend cacheAgeMs
        opts.correlationId now cfg
      let payload : EphemerisSnapshot :=
        { p0 with metadata :=
          { p0.metadata with
              cacheStale := some true
              cacheExpiresInMs := some 0
              frozenSnapshot := some true
              freezeReason := some (e.message.getD "Erreur inconnue lors du fetch Horizons")
              requestId := opts.correlationId } }
      let res : SnapshotResult :=
        { payload := payload
          cacheState := .FROZEN
          cacheBackend := backend
          cacheAgeMs := cacheAgeMs }
      { result := .ok res, store := lookup.2,
        refreshAwaited := true, staleSpawned := false }
    | none =>
      { result := .error e, store := lookup.2,
        refreshAwaited := true, staleSpawned := false }

/-- Function `getSnapshot(options)`.  Here `now` is the `Date.now()` at entry; `inflight`
is the module-level `inflightPromise` (modelled by the outcome the pending
refresh will deliver); `newTask` describes the refresh that would be
started if none is in flight. -/
def getSnapshot (cfg : CacheConfig) (opts : GetOptions) (st0 : Store)
    (inflight : Option RefreshTask) (newTask : RefreshTask) (now : Int) : GetOut :=
  let backend := backendOf st0
  let read := if opts.forceRefresh then (none, st0) else readCache st0
  let st1 := read.2
  let refreshPath : GetOut := awaitRefresh cfg opts st1 inflight newTask now backend
  match read.1 with
  | some cached =>
    let cacheAgeMs := now - cached.cachedAt
    let isFresh : Bool := decide (cacheAgeMs < cfg.ttl)
    let isStaleButAllowed : Bool := !isFresh && decide (cacheAgeMs < cfg.ttl + cfg.sw)
    if isFresh || isStaleButAllowed then
      let cacheState := if isFresh then CacheState.HIT else CacheState.STALE
      { result := .ok {
          payload := decoratePayloadMetadata cached.payload cacheState backend
            cacheAgeMs opts.correlationId now cfg
          cacheState := cacheState
          cacheBackend := backend
          cacheAgeMs := cacheAgeMs }
        store := st1
        refreshAwaited := false
        staleSpawned := isStaleButAllowed && inflight.isNone }
    else refreshPath
  | none => refreshPath

/-! ## HTTP facade (`routes/ephemeris.ts`, `dist/routes/ephemeris.js`)

The repository carries two versions of the planets snapshot handler: the
TypeScript file `server/src/routes/ephemeris.ts` (no correlation id, stale
header for `STALE` only, no frozen header) and the newer handler compiled
into `server/dist/routes/ephemeris.js` (same code appears appended to
`server/src/index.ts`), which propagates the request id and adds the
`X-Horizons-Frozen` header.  Both are embedded. -/

/-- A query/header value as Express delivers it: absent, a single string,
or an array of strings. -/
inductive ReqVal where
  | missing
  | str (s : String)
  | arr (vs : List String)
deriving DecidableEq, Repr

structure HttpReq where
  requestId : Option String
  refreshQuery : ReqVal
  refreshHeader : ReqVal
deriving DecidableEq, Repr

/-- Function `refreshParamValue`: a string passes through, an array is searched for
the first `"1"` or `"true"`, anything else is `undefined`. -/
def refreshParamValue (q : ReqVal) : Option String :=
  match q with
  | .str s => some s
  | .arr vs => vs.find? (fun v => v = "1" || v = "true")
  | .missing => none

/-- The `refreshHeader` value: Express header values are string or string array;
an array contributes its first element. -/
def refreshHeaderValue (h : ReqVal) : Option String :=
  match h with
  | .arr vs => vs.head?
  | .str s => some s
  | .missing => none

def forceRefreshOf (req : HttpReq) : Bool :=
  refreshParamValue req.refreshQuery = some "1"
    || refreshParamValue req.refreshQuery = some "true"
    || refreshHeaderValue req.refreshHeader = some "1"
    || refreshHeaderValue req.refreshHeader = some "true"

/-- The JSON error body `{ error, requestId? }`; `requestId = none` means
the property is absent from the object. -/
structure ErrBody where
  error : String
  requestId : Option String
deriving DecidableEq, Repr

structure HttpOut where
  status : Nat
  headers : List (String × String)
  bodyOk : Option EphemerisSnapshot
  bodyErr : Option ErrBody
deriving DecidableEq, Repr

def getHeader (o : HttpOut) (name : String) : Option String :=
  (o.headers.find? (fun h => h.1 = name)).map (fun h => h.2)

/-- Truthiness of an optional string (`undefined` and the empty string are falsy). -/
def strTruthy : Option String → Bool
  | some s => s ≠ ""
  | none => false

/-- Truthiness of an optional boolean. -/
def boolTruthy : Option Bool → Bool
  | some b => b
  | none => false

/-- Handler `handleSnapshotRequest` as compiled in `server/dist/routes/ephemeris.js`
(and appended to `server/src/index.ts`): correlation id from the tracing
middleware, stale header set for `STALE` and `FROZEN`, frozen header from
`payload.metadata.frozenSnapshot`, catch producing a 500 with
`{ error }` only. -/
def handleSnapshotRequest (cfg : CacheConfig) (st0 : Store)
    (inflight : Option RefreshTask) (newTask : RefreshTask) (now : Int)
    (req : HttpReq) : HttpOut :=
  let requestId := req.requestId
  let force := forceRefreshOf req
  let out := getSnapshot cfg { forceRefresh := force, correlationId := requestId }
    st0 inflight newTask now
  match out.result with
  | .ok r =>
    let latencyHdr : List (String × String) :=
      match r.payload.metadata.responseTimeMs with
      | some t => [("X-Horizons-Latency", toString t)]
      | none => []
    let isStale : Bool := r.cacheState = CacheState.STALE || r.cacheState = CacheState.FROZEN
    let baseHdrs := latencyHdr ++ [
      ("X-Horizons-Cache", cacheStateString r.cacheState),
      ("X-Horizons-Cache-Backend", r.cacheBackend),
      ("X-Horizons-Cache-Age", toString r.cacheAgeMs),
      ("X-Horizons-TTL", toString cfg.ttl),
      ("X-Horizons-Cache-Stale", if isStale then "1" else "0"),
      ("X-Horizons-Frozen", if boolTruthy r.payload.metadata.frozenSnapshot then "1" else "0")]
    let ridHdrs : List (String × String) :=
      if strTruthy r.payload.metadata.requestId || strTruthy requestId then
        [("X-Request-Id", (r.payload.metadata.requestId <|> requestId).getD "")]
      else []
    { status := 200
      headers := baseHdrs ++ ridHdrs
      bodyOk := some r.payload
      bodyErr := none }
  | .error _ =>
    { status := 500
      headers := []
      bodyOk := none
      bodyErr := some { error := "Erreur lors de la récupération des éphémérides",
                        requestId := none } }

/-- Handler `handleSnapshotRequest` as written in `server/src/routes/ephemeris.ts`:
no correlation id is read or passed, the stale header is `1` for `STALE`
only, and no `X-Horizons-Frozen` or `X-Request-Id` header is set. -/
def handleSnapshotRequestSrc (cfg : CacheConfig) (st0 : Store)
    (inflight : Option RefreshTask) (newTask : RefreshTask) (now : Int)
    (req : HttpReq) : HttpOut :=
  let force := forceRefreshOf req
  let out := getSnapshot cfg { forceRefresh := force, correlationId := none }
    st0 inflight newTask now
  match out.result with
  | .ok r =>
    let latencyHdr : List (String × String) :=
      match r.payload.metadata.responseTimeMs with
      | some t => [("X-Horizons-Latency", toString t)]
      | none => []
    let baseHdrs := latencyHdr ++ [
      ("X-Horizons-Cache", cacheStateString r.cacheState),
      ("X-Horizons-Cache-Backend", r.cacheBackend),
      ("X-Horizons-Cache-Age", toString r.cacheAgeMs),
      ("X-Horizons-TTL", toString cfg.ttl),
      ("X-Horizons-Cache-Stale", if r.cacheState = CacheState.STALE then "1" else "0")]
    { status := 200
      headers := baseHdrs
      bodyOk := some r.payload
      bodyErr := none }
  | .error _ =>
    { status := 500
      headers := []
      bodyOk := none
      bodyErr := some { error := "Erreur lors de la récupération des éphémérides",
                        requestId := none } }

/-! ## Voyagers route (`server/src/routes/voyagers.ts`)

`Math.sqrt` produces irrational values; every claim about the route only
depends on whether derived numbers are `null`, `0` or nonzero, so the value
`Math.sqrt s * k` is carried symbolically as the pair `(s, k)` (`s` is a sum
of squares, hence nonnegative, and the value is `0` iff `s = 0 ∨ k = 0`;
`sqrt` of a nonnegative number is never `NaN`). -/

def AU_TO_KM : ℚ := 1495978707 / 10
def KM_TO_MILES : ℚ := 621371 / 1000000
def SPEED_OF_LIGHT_KM_S : ℚ := 299792458 / 1000

/-- The number `Real.sqrt sq * k` carried symbolically. -/
structure SymReal where
  sq : ℚ
  k : ℚ
deriving DecidableEq, Repr

/-- Whether the carried value is zero (`sqrt sq * k = 0` iff
`sq = 0 ∨ k = 0` for `sq ≥ 0`). -/
def SymReal.isZero (r : SymReal) : Bool :=
  decide (r.sq = 0) || decide (r.k = 0)

/-- JS truthiness of a `number | null` holding such a value. -/
def symTruthy : Option SymReal → Bool
  | none => false
  | some r => !r.isZero

def symScale (r : SymReal) (c : ℚ) : SymReal := ⟨r.sq, r.k * c⟩

/-- Function `magnitude(x, y, z)`: `null` when any argument is `undefined` or not
finite, else `Math.sqrt (x*x + y*y + z*z)`. -/
def magnitudeV (x y z : Option JsNum) : Option SymReal :=
  match x, y, z with
  | some (.num a), some (.num b), some (.num c) => some ⟨a ^ 2 + b ^ 2 + c ^ 2, 1⟩
  | _, _, _ => none

/-- Function `deltaMagnitude(ax..bz)`: `null` when any argument is `undefined`,
else `magnitude(ax - bx, ay - by, az - bz)` (a `NaN` component makes the
inner `magnitude` return `null`). -/
def deltaMagnitude (ax ay az bx bY bz : Option JsNum) : Option SymReal :=
  match ax, ay, az, bx, bY, bz with
  | some a1, some a2, some a3, some b1, some b2, some b3 =>
    magnitudeV (some (jsSub a1 b1)) (some (jsSub a2 b2)) (some (jsSub a3 b3))
  | _, _, _, _, _, _ => none

structure LightTime where
  oneWaySeconds : Option SymReal
  oneWayMinutes : Option SymReal
  twoWayMinutes : Option SymReal
deriving DecidableEq, Repr

/-- Function `computeLightTime(distanceKm)`. -/
def computeLightTime (distanceKm : Option SymReal) : LightTime :=
  match distanceKm with
  | none => ⟨none, none, none⟩
  | some d =>
    let oneWay := symScale d (1 / SPEED_OF_LIGHT_KM_S)
    ⟨some oneWay, some (symScale oneWay (1 / 60)), some (symScale oneWay (2 / 60))⟩

/-- An angle value produced by `computeTrajectory`, kept symbolic:
`toDegrees (asin (num / denom))` or
`normalizeAngleDeg (toDegrees (atan2 y x))`. -/
inductive AngleVal where
  | asinRatioDeg (num : JsNum) (denom : SymReal)
  | atan2NormDeg (y x : JsNum)
deriving DecidableEq, Repr

structure Trajectory where
  eclipticLatDeg : Option AngleVal
  eclipticLonDeg : Option AngleVal
  velocityAzimuthDeg : Option AngleVal
  velocityLatDeg : Option AngleVal
deriving DecidableEq, Repr

/-- Function `computeTrajectory(position, velocity)`: every angle is guarded by the
truthiness of `r` (position magnitude) or `speed`, so a zero or `null`
magnitude yields `null`. -/
def computeTrajectory (px py pz : JsNum) (vx vy vz : Option JsNum) : Trajectory :=
  let r := magnitudeV (some px) (some py) (some pz)
  let speed := magnitudeV vx vy vz
  { eclipticLatDeg :=
      match r with
      | some rr => if rr.isZero then none else some (.asinRatioDeg pz rr)
      | none => none
    eclipticLonDeg :=
      match r with
      | some rr => if rr.isZero then none else some (.atan2NormDeg py px)
      | none => none
    velocityAzimuthDeg :=
      match speed, vx, vy with
      | some sp, some vxv, some vyv =>
        if sp.isZero then none else some (.atan2NormDeg vyv vxv)
      | _, _, _ => none
    velocityLatDeg :=
      match speed, vz with
      | some sp, some vzv =>
        if sp.isZero then none else some (.asinRatioDeg vzv sp)
      | _, _ => none }

/-- The derived values the route computes for one probe (lines 120-146 of
`voyagers.ts`); the per-component `positionKm`/`velocityKmPerS` blocks of
the response are not referenced by any claim and are omitted. -/
structure VoyagerDerived where
  distAu : Option SymReal
  distEarthAu : Option SymReal
  velAuPerDay : Option SymReal
  distanceKm : Option SymReal
  distanceMiles : Option SymReal
  distanceEarthKm : Option SymReal
  distanceEarthMiles : Option SymReal
  speedKmPerS : Option SymReal
  speedMilesPerS : Option SymReal
  lightTime : LightTime
  trajectory : Trajectory
deriving DecidableEq, Repr

/-- The per-probe computation of the route body: truthiness guards for the
distance conversions (`distAu ? distAu * AU_TO_KM : null` and the like) and
`!== null` checks for the speed conversions. -/
def computeVoyagerEntry (vec : PlanetStateVector) (earth : Option EphemerisBody) :
    VoyagerDerived :=
  let distAu := magnitudeV (some vec.x_au) (some vec.y_au) (some vec.z_au)
  let distEarthAu := deltaMagnitude (some vec.x_au) (some vec.y_au) (some vec.z_au)
    (earth.map (fun b => b.x_au)) (earth.map (fun b => b.y_au)) (earth.map (fun b => b.z_au))
  let velAuPerDay := magnitudeV vec.vx_au_per_day vec.vy_au_per_day vec.vz_au_per_day
  let distanceKm := if symTruthy distAu then distAu.map (symScale · AU_TO_KM) else none
  let distanceMiles := if symTruthy distanceKm then distanceKm.map (symScale · KM_TO_MILES) else none
  let distanceEarthKm := if symTruthy distEarthAu then distEarthAu.map (symScale · AU_TO_KM) else none
  let distanceEarthMiles :=
    if symTruthy distanceEarthKm then distanceEarthKm.map (symScale · KM_TO_MILES) else none
  let speedKmPerS :=
    match velAuPerDay with
    | some v => some (symScale v (AU_TO_KM / SECONDS_PER_DAY))
    | none => none
  let speedMilesPerS :=
    match speedKmPerS with
    | some v => some (symScale v KM_TO_MILES)
    | none => none
  { distAu := distAu
    distEarthAu := distEarthAu
    velAuPerDay := velAuPerDay
    distanceKm := distanceKm
    distanceMiles := distanceMiles
    distanceEarthKm := distanceEarthKm
    distanceEarthMiles := distanceEarthMiles
    speedKmPerS := speedKmPerS
    speedMilesPerS := speedMilesPerS
    lightTime := computeLightTime distanceEarthKm
    trajectory := computeTrajectory vec.x_au vec.y_au vec.z_au
      vec.vx_au_per_day vec.vy_au_per_day vec.vz_au_per_day }

structure VoyagerEntryOut where
  id : String
  horizonsId : String
  derived : VoyagerDerived
deriving DecidableEq, Repr

/-- Response of `GET /api/voyagers` as far as the claims observe it, plus
the list of horizons ids the handler fetched from the upstream provider
during this request (`fetchPlanetStateVector` calls). -/
structure VoyagersOut where
  status : Nat
  upstreamProbeFetches : List String
  entries : List VoyagerEntryOut
  bodyErr : Option ErrBody
deriving DecidableEq, Repr

/-- The root route handler of `voyagers.ts`: await the planets snapshot through
the cache engine (`getSnapshot`), find the earth body in it, then fetch
every probe of `VOYAGERS` directly from the upstream provider
(`fetchPlanetStateVector` inside `Promise.all`) — no probes cache exists.
`probeFetch` is the upstream oracle keyed by horizons id.  Any rejection
(snapshot or probe fetch) lands in the catch with a 500 whose body does
carry the request id. -/
def handleVoyagersRequest (cfg : CacheConfig) (st0 : Store)
    (inflight : Option RefreshTask) (newTask : RefreshTask) (now : Int)
    (requestId : Option String)
    (probeFetch : String → Except String PlanetStateVector) : VoyagersOut :=
  let snap := getSnapshot cfg { forceRefresh := false, correlationId := requestId }
    st0 inflight newTask now
  match snap.result with
  | .error _ =>
    { status := 500
      upstreamProbeFetches := []
      entries := []
      bodyErr := some { error := "Impossible de récupérer les données Voyager",
                        requestId := requestId } }
  | .ok r =>
    let earth := r.payload.bodies.find? (fun b => b.name = "earth")
    let fetches := VOYAGERS.map (fun c => c.horizonsId)
    let results := VOYAGERS.map (fun c =>
      (probeFetch c.horizonsId).map (fun vec =>
        VoyagerEntryOut.mk c.id c.horizonsId (computeVoyagerEntry vec earth)))
    if results.any (fun res => match res with | .error _ => true | .ok _ => false) then
      { status := 500
        upstreamProbeFetches := fetches
        entries := []
        bodyErr := some { error := "Impossible de récupérer les données Voyager",
                          requestId := requestId } }
    else
      { status := 200
        upstreamProbeFetches := fetches
        entries := results.filterMap (fun res => match res with
          | .ok e => some e
          | .error _ => none)
        bodyErr := none }

/-! ## Single-flight discipline (module state of `ephemerisCache.ts`)

The engine guards every refresh start with the synchronous check
`if (!inflightPromise) inflightPromise = refreshSnapshot(...)` (no await
between check and install, so the check-install pair is atomic on the JS
event loop).  Each refresh invokes the provider once per `PLANETS` entry
(`Promise.all(PLANETS.map(cfg => fetchPlanetStateVector(...)))`).

Clearing the handle is not tied to the refresh itself on every path: the
stale-revalidate and prewarm spawns attach
`.finally(() => inflightPromise = null)` to the refresh promise, but a
caller on the miss/forced path clears the module handle in the `finally`
block of its own `getSnapshot` call — once per awaiter and
unconditionally.  After a successful await, and after a failed one whose
catch completes without real I/O (a memory-tier record is present, or the
Redis client is dead so `readCache` resolves within the microtask drain),
every awaiter continuation reaches its `finally` inside the settle drain,
before any new request is dispatched, so those clears collapse into the
settle event.  But when the awaited refresh rejects while the memory tier
is empty and the Redis client is live, the catch suspends on the network
read inside `await readCache()`; that awaiter then runs
`finally { inflightPromise = null }` only when its read resolves — an
independent later event that clears whatever handle is installed at that
moment, including one owned by a newer, still-running refresh.

The trace model below has one atomic step per such synchronous segment:
`arrive`/`spawn` for the guarded check-install, `settleOk` and
`settleFailSync` for settles whose clears happen inside the drain,
`settleFailBlocked` for a failing settle whose awaiters all suspend in
the catch, `lateClear` for each suspended awaiter running its `finally`
later, and `joinStale` arrivals for a caller awaiting an already-settled,
not-yet-cleared handle (its await rejects immediately and its catch
behaves like that of a settle-blocked or settle-sync awaiter). -/

structure SFState where
  inflight : Option Nat
  running : List (Nat × Bool)
  waiters : List Nat
  pendingClears : Nat
  providerCalls : Nat
  refreshesStarted : Nat
deriving DecidableEq, Repr

def initSF : SFState := ⟨none, [], [], 0, 0, 0⟩

/-- Effect of `inflightPromise = refreshSnapshot(...)`: a fresh refresh id
is installed and the fan-out issues one provider call per catalog entry.
The flag records whether an owned `.finally` clear is attached to the
refresh promise (true for the stale-revalidate and prewarm spawns, false
for the miss/forced path, whose clears run per awaiter). -/
def installRefresh (attached : Bool) (st : SFState) : SFState :=
  { st with
    inflight := some st.refreshesStarted
    running := (st.refreshesStarted, attached) :: st.running
    providerCalls := st.providerCalls + PLANETS.length
    refreshesStarted := st.refreshesStarted + 1 }

inductive SFLabel where
  | arrive (client : Nat)
  | spawn
  | settleOk (id : Nat)
  | settleFailSync (id : Nat)
  | settleFailBlocked (id : Nat)
  | lateClear
deriving DecidableEq, Repr

/-- Atomic steps of the module state.  Arrivals either install a refresh
(handle empty), join a still-running one, or — when the handle points at a
settled, not-yet-cleared refresh — reject immediately and become a pending
clear (blocked catch) or clear at once (synchronous catch).  Settles erase
the refresh; `settleOk` and `settleFailSync` also perform the drained
clears.  A blocked failing settle runs no `finally` of its own when the
refresh has no attached clear (first rule) and only the attached one
otherwise (second rule); each suspended awaiter later contributes one
unconditional `lateClear`, whichever refresh then owns the handle. -/
inductive SFStep : SFState → SFLabel → SFState → Prop where
  | arriveInstallStep (st : SFState) (c : Nat) (h : st.inflight = none) :
      SFStep st (.arrive c)
        { installRefresh false st with waiters := st.refreshesStarted :: st.waiters }
  | arriveJoinStep (st : SFState) (c j : Nat) (h : st.inflight = some j)
      (hr : ∃ b, (j, b) ∈ st.running) :
      SFStep st (.arrive c) { st with waiters := j :: st.waiters }
  | joinStaleBlockedStep (st : SFState) (c j : Nat) (h : st.inflight = some j)
      (hs : ∀ b, ¬ (j, b) ∈ st.running) :
      SFStep st (.arrive c) { st with pendingClears := st.pendingClears + 1 }
  | joinStaleSyncStep (st : SFState) (c j : Nat) (h : st.inflight = some j)
      (hs : ∀ b, ¬ (j, b) ∈ st.running) :
      SFStep st (.arrive c) { st with inflight := none }
  | spawnInstallStep (st : SFState) (h : st.inflight = none) :
      SFStep st .spawn (installRefresh true st)
  | spawnSkipStep (st : SFState) (j : Nat) (h : st.inflight = some j) :
      SFStep st .spawn st
  | settleOkStep (st : SFState) (j : Nat) (b : Bool) (h : (j, b) ∈ st.running) :
      SFStep st (.settleOk j)
        { st with running := st.running.erase (j, b),
                  waiters := st.waiters.filter (fun w => w != j),
                  inflight := none }
  | settleFailSyncStep (st : SFState) (j : Nat) (b : Bool) (h : (j, b) ∈ st.running) :
      SFStep st (.settleFailSync j)
        { st with running := st.running.erase (j, b),
                  waiters := st.waiters.filter (fun w => w != j),
                  inflight := none }
  | settleFailBlockedStep (st : SFState) (j : Nat) (h : (j, false) ∈ st.running) :
      SFStep st (.settleFailBlocked j)
        { st with running := st.running.erase (j, false),
                  waiters := st.waiters.filter (fun w => w != j),
                  pendingClears := st.pendingClears + st.waiters.count j }
  | settleFailBlockedAttachedStep (st : SFState) (j : Nat) (h : (j, true) ∈ st.running) :
      SFStep st (.settleFailBlocked j)
        { st with running := st.running.erase (j, true),
                  waiters := st.waiters.filter (fun w => w != j),
                  pendingClears := st.pendingClears + st.waiters.count j,
                  inflight := none }
  | lateClearStep (st : SFState) (h : 0 < st.pendingClears) :
      SFStep st .lateClear
        { st with pendingClears := st.pendingClears - 1, inflight := none }

inductive SFReach : SFState → Prop where
  | init : SFReach initSF
  | next {st st' : SFState} {l : SFLabel} :
      SFReach st → SFStep st l st' → SFReach st'

/-- The lookup `memoryCache ?? (await readCache())` performed in the
catch block of `getSnapshot`. -/
def catchLookup (st : Store) : Option CacheRecord :=
  match st.memory with
  | some m => some m
  | none => (readCache st).1

/-- A record present in either tier of the store. -/
def recordOf (st : Store) (r : CacheRecord) : Prop :=
  st.memory = some r ∨ st.redis = some r

/-! ## Concrete fixtures used by witnesses and counterexamples -/

def emptyMeta : SnapshotMetadata :=
  ⟨none, none, none, none, none, none, none, none, none, none, none, none, none, none⟩

def basePayload : EphemerisSnapshot := ⟨"t0", emptyMeta, []⟩

/-- A payload whose only body is an earth entry at `(1, 0, 0) AU`. -/
def earthPayload : EphemerisSnapshot :=
  ⟨"t0", emptyMeta,
    [⟨"earth", .num 1, .num 0, .num 0, none, none, none, some "AU/day"⟩]⟩

def recordAt (t : Int) (cfg : CacheConfig) : CacheRecord :=
  { payload := basePayload, cachedAt := t, expiresAt := t + cfg.ttl,
    staleUntil := t + cfg.ttl + cfg.sw }

def earthRecordAt (t : Int) (cfg : CacheConfig) : CacheRecord :=
  { payload := earthPayload, cachedAt := t, expiresAt := t + cfg.ttl,
    staleUntil := t + cfg.ttl + cfg.sw }

def okTask : RefreshTask := ⟨.ok basePayload, 500, "", none⟩

def failTask (m : Option String) : RefreshTask := ⟨.error ⟨m⟩, 500, "", none⟩

/-- A probe state vector at `(100, 0, 0) AU` with no velocity. -/
def probeVecSimple : PlanetStateVector :=
  ⟨"Voyager 1", .num 100, .num 0, .num 0, none, none, none,
    some "AU/day", some "J2000-ECLIPTIC", some "NASA-JPL-Horizons", "ts"⟩

def probeOracleSimple : String → Except String PlanetStateVector :=
  fun _ => .ok probeVecSimple

/-- Embedded-text response whose `X` value matches the tolerant numeric
class but parses to `NaN`. -/
def textNaNResponse : String := "$$SOE\nX = . Y = 1 Z = 1\n$$EOE"

/-- Structured response whose `VX` and `VZ` parse to finite numbers while
`VY` does not. -/
def structuredMixedVel : StructuredVec :=
  ⟨some "1", some "2", some "3", some "4", some "y", some "5", none⟩

/-- Embedded-text response declaring kilometre units. -/
def textKmResponse : String :=
  "Output units : KM-S\n$$SOE\nX = 2 Y = 4 Z = 6 VX= 1\n$$EOE"

/-- Embedded-text response with no unit declaration. -/
def textAuResponse : String := "$$SOE\nX = 2 Y = 4 Z = 6 VX= 1\n$$EOE"

/-! ## Helper lemmas about the cache engine -/

/-- Well-formedness of the store at time `now`: every record in either
tier was cached at or before `now` (every stored record was created with
`cachedAt := Date.now()` at some earlier moment). -/
def storeWF (st : Store) (now : Int) : Prop :=
  (∀ r, st.memory = some r → r.cachedAt ≤ now) ∧
  (∀ r, st.redis = some r → r.cachedAt ≤ now)

theorem readCache_source {st : Store} {r : CacheRecord}
    (h : (readCache st).1 = some r) : st.redis = some r ∨ st.memory = some r := by
  unfold readCache at h
  split at h
  · exact Or.inl (by simp_all)
  · exact Or.inr h

theorem readCache_store_wf {st : Store} {now : Int} (h : storeWF st now) :
    storeWF (readCache st).2 now := by
  unfold readCache
  split
  · rename_i r heq
    exact ⟨fun s hs => h.2 s (by simp_all), fun s hs => h.2 s hs⟩
  · exact h

theorem refreshSnapshot_error {cfg : CacheConfig} {st : Store} {task : RefreshTask}
    {e : JsError} (h : task.build = .error e) :
    refreshSnapshot cfg st task = (.error e, st) := by
  unfold refreshSnapshot
  rw [h]

theorem refreshSnapshot_ok {cfg : CacheConfig} {st : Store} {task : RefreshTask}
    {p : EphemerisSnapshot} (h : task.build = .ok p) :
    ∃ res st', refreshSnapshot cfg st task = (.ok res, st') ∧
      res.cacheState = .MISS ∧ res.cacheAgeMs = 0 ∧ res.cacheBackend = backendOf st := by
  unfold refreshSnapshot
  rw [h]
  exact ⟨_, _, rfl, rfl, rfl, rfl⟩

theorem awaitRefresh_awaited (cfg : CacheConfig) (opts : GetOptions) (st1 : Store)
    (inflight : Option RefreshTask) (newTask : RefreshTask) (now : Int)
    (backend : String) :
    (awaitRefresh cfg opts st1 inflight newTask now backend).refreshAwaited = true := by
  simp only [awaitRefresh]
  split
  · rfl
  · split <;> rfl

theorem awaitRefresh_result_state {cfg : CacheConfig} {opts : GetOptions} {st1 : Store}
    {inflight : Option RefreshTask} {newTask : RefreshTask} {now : Int}
    {backend : String} {res : SnapshotResult}
    (h : (awaitRefresh cfg opts st1 inflight newTask now backend).result = .ok res) :
    (res.cacheState = .MISS ∧ res.cacheAgeMs = 0) ∨
    (res.cacheState = .FROZEN ∧ ∃ cached,
      (st1.memory = some cached ∨ (readCache st1).1 = some cached) ∧
      res.cacheAgeMs = now - cached.cachedAt) := by
  rcases hb : (effectiveTask opts inflight newTask).build with e | p
  · simp only [awaitRefresh, refreshSnapshot_error hb] at h
    rcases hmem : st1.memory with _ | m
    · rcases hrc : (readCache st1).1 with _ | r
      · simp [hmem, hrc] at h
      · simp only [hmem, hrc] at h
        have hres := Except.ok.inj h
        subst hres
        exact Or.inr ⟨rfl, r, Or.inr rfl, rfl⟩
    · simp only [hmem] at h
      have hres := Except.ok.inj h
      subst hres
      exact Or.inr ⟨rfl, m, Or.inl rfl, rfl⟩
  · obtain ⟨r0, st', heq, hstate, hage, _⟩ := @refreshSnapshot_ok cfg st1 _ _ hb
    simp only [awaitRefresh, heq] at h
    have hres := Except.ok.inj h
    subst hres
    exact Or.inl ⟨hstate, hage⟩

theorem getSnapshot_hit {cfg : CacheConfig} {opts : GetOptions} {st0 : Store}
    {inflight : Option RefreshTask} {newTask : RefreshTask} {now : Int}
    {cached : CacheRecord}
    (hforce : opts.forceRefresh = false)
    (hrc : (readCache st0).1 = some cached)
    (hfresh : now - cached.cachedAt < cfg.ttl) :
    getSnapshot cfg opts st0 inflight newTask now =
      { result := .ok
          { payload := decoratePayloadMetadata cached.payload .HIT (backendOf st0)
              (now - cached.cachedAt) opts.correlationId now cfg
            cacheState := .HIT
            cacheBackend := backendOf st0
            cacheAgeMs := now - cached.cachedAt }
        store := (readCache st0).2
        refreshAwaited := false
        staleSpawned := false } := by
  have hf : decide (now - cached.cachedAt < cfg.ttl) = true := by simpa using hfresh
  simp only [getSnapshot, hforce, Bool.false_eq_true, if_false, hrc, hf]
  simp

theorem getSnapshot_stale {cfg : CacheConfig} {opts : GetOptions} {st0 : Store}
    {inflight : Option RefreshTask} {newTask : RefreshTask} {now : Int}
    {cached : CacheRecord}
    (hforce : opts.forceRefresh = false)
    (hrc : (readCache st0).1 = some cached)
    (hold : cfg.ttl ≤ now - cached.cachedAt)
    (hin : now - cached.cachedAt < cfg.ttl + cfg.sw) :
    getSnapshot cfg opts st0 inflight newTask now =
      { result := .ok
          { payload := decoratePayloadMetadata cached.payload .STALE (backendOf st0)
              (now - cached.cachedAt) opts.correlationId now cfg
            cacheState := .STALE
            cacheBackend := backendOf st0
            cacheAgeMs := now - cached.cachedAt }
        store := (readCache st0).2
        refreshAwaited := false
        staleSpawned := inflight.isNone } := by
  have hf : decide (now - cached.cachedAt < cfg.ttl) = false := by
    simp only [decide_eq_false_iff_not, not_lt]
    exact hold
  have hs : decide (now - cached.cachedAt < cfg.ttl + cfg.sw) = true := by simpa using hin
  simp only [getSnapshot, hforce, Bool.false_eq_true, if_false, hrc, hf, hs]
  simp

theorem getSnapshot_refresh_none {cfg : CacheConfig} {opts : GetOptions} {st0 : Store}
    {inflight : Option RefreshTask} {newTask : RefreshTask} {now : Int}
    (hforce : opts.forceRefresh = false)
    (hrc : (readCache st0).1 = none) :
    getSnapshot cfg opts st0 inflight newTask now =
      awaitRefresh cfg opts (readCache st0).2 inflight newTask now (backendOf st0) := by
  simp only [getSnapshot, hforce, Bool.false_eq_true, if_false, hrc]

theorem getSnapshot_refresh_old {cfg : CacheConfig} {opts : GetOptions} {st0 : Store}
    {inflight : Option RefreshTask} {newTask : RefreshTask} {now : Int}
    {cached : CacheRecord}
    (hsw : 0 ≤ cfg.sw)
    (hforce : opts.forceRefresh = false)
    (hrc : (readCache st0).1 = some cached)
    (hout : cfg.ttl + cfg.sw ≤ now - cached.cachedAt) :
    getSnapshot cfg opts st0 inflight newTask now =
      awaitRefresh cfg opts (readCache st0).2 inflight newTask now (backendOf st0) := by
  have hf : decide (now - cached.cachedAt < cfg.ttl) = false := by
    simp only [decide_eq_false_iff_not, not_lt]
    omega
  have hs : decide (now - cached.cachedAt < cfg.ttl + cfg.sw) = false := by
    simp only [decide_eq_false_iff_not, not_lt]
    exact hout
  simp only [getSnapshot, hforce, Bool.false_eq_true, if_false, hrc, hf, hs]
  simp

theorem getSnapshot_forced {cfg : CacheConfig} {opts : GetOptions} {st0 : Store}
    {inflight : Option RefreshTask} {newTask : RefreshTask} {now : Int}
    (hforce : opts.forceRefresh = true) :
    getSnapshot cfg opts st0 inflight newTask now =
      awaitRefresh cfg opts st0 inflight newTask now (backendOf st0) := by
  simp only [getSnapshot, hforce, if_true]

theorem readCache_snd_recordOf {st : Store} {r : CacheRecord}
    (h : recordOf (readCache st).2 r) : recordOf st r := by
  unfold readCache at h
  rcases h with h | h
  · split at h
    · rename_i rr heq
      exact Or.inr (by simp_all)
    · exact Or.inl h
  · split at h
    · rename_i rr heq
      exact Or.inr (by simp_all)
    · exact Or.inr h

theorem awaitRefresh_recordOf {cfg : CacheConfig} {opts : GetOptions} {st1 : Store}
    {inflight : Option RefreshTask} {newTask : RefreshTask} {now : Int}
    {backend : String} {res : SnapshotResult}
    (h : (awaitRefresh cfg opts st1 inflight newTask now backend).result = .ok res) :
    (res.cacheState = .MISS ∧ res.cacheAgeMs = 0) ∨
    (res.cacheState = .FROZEN ∧ ∃ cached, recordOf st1 cached ∧
      res.cacheAgeMs = now - cached.cachedAt) := by
  rcases awaitRefresh_result_state h with hm | ⟨hs, cached, hsrc, hage⟩
  · exact Or.inl hm
  · refine Or.inr ⟨hs, cached, ?_, hage⟩
    rcases hsrc with hmem | hrc
    · exact Or.inl hmem
    · rcases readCache_source hrc with h1 | h2
      · exact Or.inr h1
      · exact Or.inl h2

theorem getSnapshot_ok_cases {cfg : CacheConfig} {opts : GetOptions} {st0 : Store}
    {inflight : Option RefreshTask} {newTask : RefreshTask} {now : Int}
    {res : SnapshotResult}
    (hsw : 0 ≤ cfg.sw)
    (h : (getSnapshot cfg opts st0 inflight newTask now).result = .ok res) :
    (res.cacheState = .MISS ∧ res.cacheAgeMs = 0) ∨
    ((res.cacheState = .HIT ∨ res.cacheState = .STALE ∨ res.cacheState = .FROZEN) ∧
      ∃ cached, recordOf st0 cached ∧ res.cacheAgeMs = now - cached.cachedAt) := by
  rcases hforce : opts.forceRefresh with _ | _
  · rcases hrc : (readCache st0).1 with _ | cached
    · rw [getSnapshot_refresh_none hforce hrc] at h
      rcases awaitRefresh_recordOf h with hm | ⟨hs, c, hrec, hage⟩
      · exact Or.inl hm
      · exact Or.inr ⟨Or.inr (Or.inr hs), c, readCache_snd_recordOf hrec, hage⟩
    · by_cases hfr : now - cached.cachedAt < cfg.ttl
      · rw [getSnapshot_hit hforce hrc hfr] at h
        have hres := Except.ok.inj h
        subst hres
        refine Or.inr ⟨Or.inl rfl, cached, ?_, rfl⟩
        rcases readCache_source hrc with h1 | h2
        · exact Or.inr h1
        · exact Or.inl h2
      · by_cases hin : now - cached.cachedAt < cfg.ttl + cfg.sw
        · rw [getSnapshot_stale hforce hrc (by omega) hin] at h
          have hres := Except.ok.inj h
          subst hres
          refine Or.inr ⟨Or.inr (Or.inl rfl), cached, ?_, rfl⟩
          rcases readCache_source hrc with h1 | h2
          · exact Or.inr h1
          · exact Or.inl h2
        · rw [getSnapshot_refresh_old hsw hforce hrc (by omega)] at h
          rcases awaitRefresh_recordOf h with hm | ⟨hs, c, hrec, hage⟩
          · exact Or.inl hm
          · exact Or.inr ⟨Or.inr (Or.inr hs), c, readCache_snd_recordOf hrec, hage⟩
  · rw [getSnapshot_forced hforce] at h
    rcases awaitRefresh_recordOf h with hm | ⟨hs, c, hrec, hage⟩
    · exact Or.inl hm
    · exact Or.inr ⟨Or.inr (Or.inr hs), c, hrec, hage⟩

/-! ## Claim theorems -/

/-- C1: for a non-forced `getSnapshot` call that finds a cache record, with
`cacheAgeMs = now - cachedAt`: the record is served as `HIT` iff
`cacheAgeMs < TTL`, as `STALE` iff `TTL ≤ cacheAgeMs < TTL + STALE_WINDOW`,
and when `cacheAgeMs ≥ TTL + STALE_WINDOW` (or no record exists) the record
is not served directly and a refresh is awaited instead; every successful
result has `0 ≤ cacheAgeMs` (given that stored records were cached no later
than `now`), and `cacheAgeMs = 0` on `MISS`. -/
theorem claim_C1_freshness_and_cache_age
    (cfg : CacheConfig) (opts : GetOptions) (st0 : Store)
    (inflight : Option RefreshTask) (newTask : RefreshTask) (now : Int)
    (out : GetOut)
    (hsw : 0 ≤ cfg.sw)
    (hwf : storeWF st0 now)
    (hout : out = getSnapshot cfg opts st0 inflight newTask now) :
    (opts.forceRefresh = false →
      (((readCache st0).1 = none → out.refreshAwaited = true) ∧
      (∀ cached, (readCache st0).1 = some cached →
        (((∃ res, out.result = .ok res ∧ res.cacheState = .HIT ∧
            res.cacheAgeMs = now - cached.cachedAt) ↔
            now - cached.cachedAt < cfg.ttl) ∧
         ((∃ res, out.result = .ok res ∧ res.cacheState = .STALE ∧
            res.cacheAgeMs = now - cached.cachedAt) ↔
            (cfg.ttl ≤ now - cached.cachedAt ∧
             now - cached.cachedAt < cfg.ttl + cfg.sw)) ∧
         (cfg.ttl + cfg.sw ≤ now - cached.cachedAt →
            out.refreshAwaited = true ∧
            ∀ res, out.result = .ok res →
              res.cacheState = .MISS ∨ res.cacheState = .FROZEN))))) ∧
    (∀ res, out.result = .ok res → 0 ≤ res.cacheAgeMs) ∧
    (∀ res, out.result = .ok res → res.cacheState = .MISS → res.cacheAgeMs = 0) := by
  subst hout
  refine ⟨?_, ?_, ?_⟩
  · intro hforce
    constructor
    · intro hrc
      rw [getSnapshot_refresh_none hforce hrc]
      exact awaitRefresh_awaited ..
    · intro cached hrc
      by_cases hfr : now - cached.cachedAt < cfg.ttl
      · rw [getSnapshot_hit hforce hrc hfr]
        refine ⟨⟨fun _ => hfr, fun _ => ⟨_, rfl, rfl, rfl⟩⟩, ?_, ?_⟩
        · constructor
          · rintro ⟨res, hres, hstate, -⟩
            have := Except.ok.inj hres
            subst this
            simp at hstate
          · intro hr
            omega
        · intro hr
          omega
      · by_cases hin : now - cached.cachedAt < cfg.ttl + cfg.sw
        · rw [getSnapshot_stale hforce hrc (by omega) hin]
          refine ⟨?_, ⟨fun _ => ⟨by omega, hin⟩, fun _ => ⟨_, rfl, rfl, rfl⟩⟩, ?_⟩
          · constructor
            · rintro ⟨res, hres, hstate, -⟩
              have := Except.ok.inj hres
              subst this
              simp at hstate
            · intro hr
              omega
          · intro hr
            omega
        · rw [getSnapshot_refresh_old hsw hforce hrc (by omega)]
          refine ⟨?_, ?_, ?_⟩
          · constructor
            · rintro ⟨res, hres, hstate, -⟩
              rcases awaitRefresh_result_state hres with ⟨hm, -⟩ | ⟨hm, -⟩ <;>
                rw [hstate] at hm <;> simp at hm
            · intro hr
              exact absurd hr hfr
          · constructor
            · rintro ⟨res, hres, hstate, -⟩
              rcases awaitRefresh_result_state hres with ⟨hm, -⟩ | ⟨hm, -⟩ <;>
                rw [hstate] at hm <;> simp at hm
            · rintro ⟨-, hr⟩
              exact absurd hr hin
          · intro hr
            refine ⟨awaitRefresh_awaited .., fun res hres => ?_⟩
            rcases awaitRefresh_result_state hres with ⟨hm, -⟩ | ⟨hm, -⟩
            · exact Or.inl hm
            · exact Or.inr hm
  · intro res hres
    rcases getSnapshot_ok_cases hsw hres with ⟨-, hage⟩ | ⟨-, cached, hrec, hage⟩
    · omega
    · rcases hrec with hmem | hred
      · have := hwf.1 cached hmem
        omega
      · have := hwf.2 cached hred
        omega
  · intro res hres hstate
    rcases getSnapshot_ok_cases hsw hres with ⟨-, hage⟩ | ⟨hst, -⟩
    · exact hage
    · rcases hst with hst | hst | hst <;> rw [hstate] at hst <;> simp at hst

/-- Witness for C1: a record cached at `0` read at `1000` is served as
`HIT` with `cacheAgeMs = 1000`. -/
theorem claim_C1_freshness_witness :
    ∃ res,
      (getSnapshot defaultCacheConfig ⟨false, none⟩
        ⟨false, none, some (recordAt 0 defaultCacheConfig)⟩ none okTask 1000).result =
        .ok res ∧ res.cacheState = .HIT ∧
        res.cacheAgeMs = 1000 - (recordAt 0 defaultCacheConfig).cachedAt := by
  have h := claim_C1_freshness_and_cache_age defaultCacheConfig ⟨false, none⟩
    ⟨false, none, some (recordAt 0 defaultCacheConfig)⟩ none okTask 1000
    (getSnapshot defaultCacheConfig ⟨false, none⟩
      ⟨false, none, some (recordAt 0 defaultCacheConfig)⟩ none okTask 1000)
    (by decide)
    ⟨fun r hr => by cases hr; decide, fun r hr => by cases hr⟩
    rfl
  exact ((h.1 rfl).2 (recordAt 0 defaultCacheConfig) (by decide)).1.mpr (by decide)

theorem getSnapshot_refresh_notServed {cfg : CacheConfig} {opts : GetOptions}
    {st0 : Store} {inflight : Option RefreshTask} {newTask : RefreshTask} {now : Int}
    {cached : CacheRecord}
    (hforce : opts.forceRefresh = false)
    (hrc : (readCache st0).1 = some cached)
    (hnf : ¬ (now - cached.cachedAt < cfg.ttl))
    (hns : ¬ (now - cached.cachedAt < cfg.ttl + cfg.sw)) :
    getSnapshot cfg opts st0 inflight newTask now =
      awaitRefresh cfg opts (readCache st0).2 inflight newTask now (backendOf st0) := by
  have hf : decide (now - cached.cachedAt < cfg.ttl) = false := by
    simpa using hnf
  have hs : decide (now - cached.cachedAt < cfg.ttl + cfg.sw) = false := by
    simpa using hns
  simp only [getSnapshot, hforce, Bool.false_eq_true, if_false, hrc, hf, hs]
  simp

/-- Whenever a `getSnapshot` call awaited a refresh, its outcome is that of
`awaitRefresh` on the post-read store. -/
theorem getSnapshot_awaited_eq {cfg : CacheConfig} {opts : GetOptions} {st0 : Store}
    {inflight : Option RefreshTask} {newTask : RefreshTask} {now : Int}
    (h : (getSnapshot cfg opts st0 inflight newTask now).refreshAwaited = true) :
    getSnapshot cfg opts st0 inflight newTask now =
      awaitRefresh cfg opts (if opts.forceRefresh then st0 else (readCache st0).2)
        inflight newTask now (backendOf st0) := by
  rcases hforce : opts.forceRefresh with _ | _
  · rcases hrc : (readCache st0).1 with _ | cached
    · rw [getSnapshot_refresh_none hforce hrc]
      simp
    · by_cases hfr : now - cached.cachedAt < cfg.ttl
      · rw [getSnapshot_hit hforce hrc hfr] at h
        simp at h
      · by_cases hin : now - cached.cachedAt < cfg.ttl + cfg.sw
        · rw [getSnapshot_stale hforce hrc (by omega) hin] at h
          simp at h
        · rw [getSnapshot_refresh_notServed hforce hrc hfr hin]
          simp
  · rw [getSnapshot_forced hforce]
    simp [hforce]

/-- C2 (amended): when the awaited refresh fails, the catch block serves
the record found by `memoryCache ?? readCache()` as `FROZEN` with
`cacheStale = true`, `cacheExpiresInMs = 0`, `frozenSnapshot = true` and
`freezeReason` equal to the error message when present (else a fixed
non-empty default); the error propagates exactly when that lookup finds
nothing, i.e. when the memory tier is empty and the Redis tier is dead or
empty. -/
theorem claim_C2_frozen_fallback
    (cfg : CacheConfig) (opts : GetOptions) (st0 : Store)
    (inflight : Option RefreshTask) (newTask : RefreshTask) (now : Int)
    (out : GetOut) (e : JsError) (st1 : Store)
    (hout : out = getSnapshot cfg opts st0 inflight newTask now)
    (hst1 : st1 = if opts.forceRefresh then st0 else (readCache st0).2)
    (htask : (effectiveTask opts inflight newTask).build = .error e)
    (hawait : out.refreshAwaited = true) :
    (∀ cached, catchLookup st1 = some cached →
      ∃ res, out.result = .ok res ∧ res.cacheState = .FROZEN ∧
        res.payload.metadata.cacheStale = some true ∧
        res.payload.metadata.cacheExpiresInMs = some 0 ∧
        res.payload.metadata.frozenSnapshot = some true ∧
        res.payload.metadata.freezeReason =
          some (e.message.getD "Erreur inconnue lors du fetch Horizons") ∧
        res.cacheAgeMs = now - cached.cachedAt) ∧
    (catchLookup st1 = none → out.result = .error e) ∧
    (catchLookup st1 = none ↔
      st1.memory = none ∧ (st1.redisLive = false ∨ st1.redis = none)) := by
  subst hout
  rw [getSnapshot_awaited_eq hawait, ← hst1]
  have hrun : refreshSnapshot cfg st1 (effectiveTask opts inflight newTask) =
      (.error e, st1) := refreshSnapshot_error htask
  refine ⟨?_, ?_, ?_⟩
  · intro cached hc
    unfold catchLookup at hc
    simp only [awaitRefresh, hrun]
    rcases hmem : st1.memory with _ | m
    · simp only [hmem] at hc
      simp only [hmem, hc]
      exact ⟨_, rfl, rfl, rfl, rfl, rfl, rfl, rfl⟩
    · simp only [hmem] at hc
      have hcm := Option.some.inj hc
      subst hcm
      simp only [hmem]
      exact ⟨_, rfl, rfl, rfl, rfl, rfl, rfl, rfl⟩
  · intro hc
    unfold catchLookup at hc
    simp only [awaitRefresh, hrun]
    rcases hmem : st1.memory with _ | m
    · simp only [hmem] at hc
      simp only [hmem, hc]
    · simp only [hmem] at hc
      cases hc
  · unfold catchLookup readCache
    rcases hmem : st1.memory with _ | m
    · rcases hl : st1.redisLive with _ | _
      · simp [hl]
      · rcases hr : st1.redis with _ | r
        · simp [hl, hr]
        · simp [hl, hr]
    · simp

/-- Counterexample to C2 as stated: a refresh rejection whose error
message is the empty string yields `freezeReason = some ""`, which is not
a non-empty freeze reason (`err?.message ?? default` only substitutes the
default for an absent message). -/
theorem claim_C2_empty_freeze_reason_cex :
    ((getSnapshot defaultCacheConfig ⟨true, some "abc"⟩
        ⟨false, none, some (recordAt 0 defaultCacheConfig)⟩ none
        (failTask (some "")) 1000).result.map
      (fun r => (r.cacheState, r.payload.metadata.frozenSnapshot,
        r.payload.metadata.freezeReason))) =
      .ok (CacheState.FROZEN, some true, some "") := by decide

/-- Witness for C2: a failing forced refresh over a memory-tier record is
served as `FROZEN` with the documented metadata. -/
theorem claim_C2_frozen_witness :
    ∃ res, (getSnapshot defaultCacheConfig ⟨true, some "abc"⟩
        ⟨false, none, some (recordAt 0 defaultCacheConfig)⟩ none
        (failTask (some "boom")) 1000).result = .ok res ∧
      res.cacheState = .FROZEN ∧
      res.payload.metadata.cacheStale = some true ∧
      res.payload.metadata.cacheExpiresInMs = some 0 ∧
      res.payload.metadata.frozenSnapshot = some true ∧
      res.payload.metadata.freezeReason = some "boom" ∧
      res.cacheAgeMs = 1000 - (recordAt 0 defaultCacheConfig).cachedAt := by
  have h := claim_C2_frozen_fallback defaultCacheConfig ⟨true, some "abc"⟩
      ⟨false, none, some (recordAt 0 defaultCacheConfig)⟩ none (failTask (some "boom")) 1000
      (getSnapshot defaultCacheConfig ⟨true, some "abc"⟩
        ⟨false, none, some (recordAt 0 defaultCacheConfig)⟩ none
        (failTask (some "boom")) 1000)
      ⟨some "boom"⟩ ⟨false, none, some (recordAt 0 defaultCacheConfig)⟩
      rfl (by decide) (by decide) (by decide)
  obtain ⟨res, h1, h2, h3, h4, h5, h6, h7⟩ := h.1 (recordAt 0 defaultCacheConfig) (by decide)
  exact ⟨res, h1, h2, h3, h4, h5, h6, h7⟩

/-- C3 (refuted): the claimed single-flight discipline fails — a
reachable module state runs two refreshes concurrently and the provider
is invoked `3 * |PLANETS|` times for one burst.  Clients 0 and 1 miss and
await refresh 0; refresh 0 fails while the memory tier is empty and the
Redis client is live, so both awaiter catches suspend on
`await readCache()`; the first resolving read clears the handle; client 2
then installs refresh 1; the second late clear wipes the handle owned by
still-running refresh 1; client 3 then installs refresh 2 while refresh 1
is still in flight. -/
theorem claim_C3_single_flight_race :
    ∃ st : SFState, SFReach st ∧
      st.running.length = 2 ∧
      st.providerCalls = 3 * PLANETS.length ∧
      st.refreshesStarted = 3 := by
  refine ⟨⟨some 2, [(2, false), (1, false)], [2, 1], 0, 27, 3⟩, ?_, rfl, by decide, rfl⟩
  have e1 : ({ installRefresh false initSF with
      waiters := initSF.refreshesStarted :: initSF.waiters } : SFState)
      = ⟨some 0, [(0, false)], [0], 0, 9, 1⟩ := by decide
  have s1 : SFReach (⟨some 0, [(0, false)], [0], 0, 9, 1⟩ : SFState) :=
    e1 ▸ SFReach.next SFReach.init (SFStep.arriveInstallStep initSF 0 rfl)
  have s2 : SFReach (⟨some 0, [(0, false)], [0, 0], 0, 9, 1⟩ : SFState) :=
    SFReach.next s1
      (SFStep.arriveJoinStep ⟨some 0, [(0, false)], [0], 0, 9, 1⟩ 1 0 rfl
        ⟨false, by decide⟩)
  have e3 : ({ (⟨some 0, [(0, false)], [0, 0], 0, 9, 1⟩ : SFState) with
      running := ([(0, false)] : List (Nat × Bool)).erase (0, false),
      waiters := ([0, 0] : List Nat).filter (fun w => w != 0),
      pendingClears := 0 + ([0, 0] : List Nat).count 0 } : SFState)
      = ⟨some 0, [], [], 2, 9, 1⟩ := by decide
  have s3 : SFReach (⟨some 0, [], [], 2, 9, 1⟩ : SFState) :=
    e3 ▸ SFReach.next s2
      (SFStep.settleFailBlockedStep ⟨some 0, [(0, false)], [0, 0], 0, 9, 1⟩ 0
        (by decide))
  have s4 : SFReach (⟨none, [], [], 1, 9, 1⟩ : SFState) :=
    SFReach.next s3
      (SFStep.lateClearStep ⟨some 0, [], [], 2, 9, 1⟩ (by decide))
  have e5 : ({ installRefresh false ⟨none, [], [], 1, 9, 1⟩ with
      waiters := (⟨none, [], [], 1, 9, 1⟩ : SFState).refreshesStarted
        :: (⟨none, [], [], 1, 9, 1⟩ : SFState).waiters } : SFState)
      = ⟨some 1, [(1, false)], [1], 1, 18, 2⟩ := by decide
  have s5 : SFReach (⟨some 1, [(1, false)], [1], 1, 18, 2⟩ : SFState) :=
    e5 ▸ SFReach.next s4
      (SFStep.arriveInstallStep ⟨none, [], [], 1, 9, 1⟩ 2 rfl)
  have s6 : SFReach (⟨none, [(1, false)], [1], 0, 18, 2⟩ : SFState) :=
    SFReach.next s5
      (SFStep.lateClearStep ⟨some 1, [(1, false)], [1], 1, 18, 2⟩ (by decide))
  have e7 : ({ installRefresh false ⟨none, [(1, false)], [1], 0, 18, 2⟩ with
      waiters := (⟨none, [(1, false)], [1], 0, 18, 2⟩ : SFState).refreshesStarted
        :: (⟨none, [(1, false)], [1], 0, 18, 2⟩ : SFState).waiters } : SFState)
      = ⟨some 2, [(2, false), (1, false)], [2, 1], 0, 27, 3⟩ := by decide
  exact e7 ▸ SFReach.next s6
    (SFStep.arriveInstallStep ⟨none, [(1, false)], [1], 0, 18, 2⟩ 3 rfl)

/-- C4 (amended): the voyagers route obtains the Earth position through the
planets snapshot cache engine (`getSnapshot`), but the probe bodies are
fetched directly from the upstream provider on every request — whenever
the planets snapshot resolves, the handler issues exactly the `VOYAGERS`
upstream fetches, whatever the cache state; there is no probes-kind cached
path. -/
theorem claim_C4_voyagers_probe_sourcing
    (cfg : CacheConfig) (st0 : Store) (inflight : Option RefreshTask)
    (newTask : RefreshTask) (now : Int) (requestId : Option String)
    (probeFetch : String → Except String PlanetStateVector) (out : VoyagersOut)
    (hout : out = handleVoyagersRequest cfg st0 inflight newTask now requestId probeFetch) :
    (∀ res, (getSnapshot cfg ⟨false, requestId⟩ st0 inflight newTask now).result = .ok res →
      out.upstreamProbeFetches = VOYAGERS.map (fun c => c.horizonsId) ∧
      out.upstreamProbeFetches ≠ []) ∧
    (∀ e, (getSnapshot cfg ⟨false, requestId⟩ st0 inflight newTask now).result = .error e →
      out.status = 500 ∧ out.upstreamProbeFetches = [] ∧
      out.bodyErr = some ⟨"Impossible de récupérer les données Voyager", requestId⟩) := by
  subst hout
  unfold handleVoyagersRequest
  constructor
  · intro res hres
    simp only [hres]
    constructor
    · split <;> rfl
    · split <;> simp [VOYAGERS]
  · intro e he
    simp [he]

/-- Counterexample to C4 as stated: with a fresh planets record in the
cache (both requests are planets-cache `HIT`s and leave the store
untouched), each of two repeated `/api/voyagers` requests still performs
the two upstream probe fetches — 4 provider calls in total instead of the
`|VOYAGERS| = 2` the claim predicts for one TTL window. -/
theorem claim_C4_probes_refetched_cex :
    (handleVoyagersRequest defaultCacheConfig
        ⟨false, none, some (earthRecordAt 0 defaultCacheConfig)⟩ none okTask 1000
        (some "r1") probeOracleSimple).upstreamProbeFetches = ["-31", "-32"] ∧
    (handleVoyagersRequest defaultCacheConfig
        ⟨false, none, some (earthRecordAt 0 defaultCacheConfig)⟩ none okTask 2000
        (some "r2") probeOracleSimple).upstreamProbeFetches = ["-31", "-32"] ∧
    (getSnapshot defaultCacheConfig ⟨false, some "r1"⟩
        ⟨false, none, some (earthRecordAt 0 defaultCacheConfig)⟩ none okTask 1000).store =
      ⟨false, none, some (earthRecordAt 0 defaultCacheConfig)⟩ ∧
    ((getSnapshot defaultCacheConfig ⟨false, some "r1"⟩
        ⟨false, none, some (earthRecordAt 0 defaultCacheConfig)⟩ none okTask 1000).result.map
      (fun r => r.cacheState)) = .ok .HIT ∧
    ((getSnapshot defaultCacheConfig ⟨false, some "r2"⟩
        ⟨false, none, some (earthRecordAt 0 defaultCacheConfig)⟩ none okTask 2000).result.map
      (fun r => r.cacheState)) = .ok .HIT ∧
    VOYAGERS.length = 2 := by
  refine ⟨?_, ?_, ?_, ?_, ?_, ?_⟩ <;> with_unfolding_all rfl

/-- Witness for the amended C4 at a concrete warm store. -/
theorem claim_C4_voyagers_witness :
    (handleVoyagersRequest defaultCacheConfig
        ⟨false, none, some (earthRecordAt 0 defaultCacheConfig)⟩ none okTask 1000
        (some "r1") probeOracleSimple).upstreamProbeFetches =
      VOYAGERS.map (fun c => c.horizonsId) := by
  have h := claim_C4_voyagers_probe_sourcing defaultCacheConfig
      ⟨false, none, some (earthRecordAt 0 defaultCacheConfig)⟩ none okTask 1000
      (some "r1") probeOracleSimple
      (handleVoyagersRequest defaultCacheConfig
        ⟨false, none, some (earthRecordAt 0 defaultCacheConfig)⟩ none okTask 1000
        (some "r1") probeOracleSimple) rfl
  rcases hres : (getSnapshot defaultCacheConfig ⟨false, some "r1"⟩
      ⟨false, none, some (earthRecordAt 0 defaultCacheConfig)⟩ none okTask 1000).result with e | res
  · have hh : ((getSnapshot defaultCacheConfig ⟨false, some "r1"⟩
        ⟨false, none, some (earthRecordAt 0 defaultCacheConfig)⟩ none okTask 1000).result.map
        (fun r => r.cacheState)) = .ok .HIT := by with_unfolding_all rfl
    rw [hres] at hh
    simp [Except.map] at hh
  · exact (h.1 res hres).1

/-- C5 (amended): in the structured shape, `X/Y/Z` that cannot be parsed to
finite numbers cause an error, and every velocity component present in the
result is finite — but presence is decided per component, not all-or-none;
in the embedded-text shape the parser errors when the `$$SOE`/`$$EOE`
markers or the `X/Y/Z` matches are missing, while matched values are
returned without any finiteness check. -/
theorem claim_C5_parser_guarantees :
    (∀ name nowIso vec res, parseStructuredVec name nowIso vec = .ok res →
      res.x_au.isFinite = true ∧ res.y_au.isFinite = true ∧ res.z_au.isFinite = true ∧
      (∀ v, res.vx_au_per_day = some v → v.isFinite = true) ∧
      (∀ v, res.vy_au_per_day = some v → v.isFinite = true) ∧
      (∀ v, res.vz_au_per_day = some v → v.isFinite = true)) ∧
    (∀ name nowIso t, soeBlock t = none →
      parseVectorFromResult name nowIso t =
        .error "Réponse Horizons sans bloc SOE/EOE") ∧
    (∀ name nowIso t block, soeBlock t = some block →
      (scanNum ['X'] block = none ∨ scanNum ['Y'] block = none ∨
        scanNum ['Z'] block = none) →
      parseVectorFromResult name nowIso t =
        .error "Coordonnées X/Y/Z manquantes dans la réponse Horizons") := by
  refine ⟨?_, ?_, ?_⟩
  · intro name nowIso vec res h
    simp only [parseStructuredVec] at h
    by_cases hc :
        ((match vec.X with | some s => parseFloatJs s | none => JsNum.nan).isFinite &&
          (match vec.Y with | some s => parseFloatJs s | none => JsNum.nan).isFinite &&
          (match vec.Z with | some s => parseFloatJs s | none => JsNum.nan).isFinite) = true
    · rw [if_pos hc] at h
      have hres := Except.ok.inj h
      subst hres
      simp only [Bool.and_eq_true] at hc
      refine ⟨hc.1.1, hc.1.2, hc.2, ?_, ?_, ?_⟩
      · intro v hv
        simp only at hv
        rcases hX : vec.VX with _ | s
        · rw [hX] at hv
          cases hv
        · rw [hX] at hv
          simp only [Option.map] at hv
          split at hv
          · rename_i hf
            have := Option.some.inj hv
            rw [← this]
            exact hf
          · cases hv
      · intro v hv
        simp only at hv
        rcases hX : vec.VY with _ | s
        · rw [hX] at hv
          cases hv
        · rw [hX] at hv
          simp only [Option.map] at hv
          split at hv
          · rename_i hf
            have := Option.some.inj hv
            rw [← this]
            exact hf
          · cases hv
      · intro v hv
        simp only at hv
        rcases hX : vec.VZ with _ | s
        · rw [hX] at hv
          cases hv
        · rw [hX] at hv
          simp only [Option.map] at hv
          split at hv
          · rename_i hf
            have := Option.some.inj hv
            rw [← this]
            exact hf
          · cases hv
    · rw [if_neg hc] at h
      cases h
  · intro name nowIso t hb
    unfold parseVectorFromResult
    rw [hb]
  · intro name nowIso t block hb hmiss
    unfold parseVectorFromResult
    rw [hb]
    rcases hx : scanNum ['X'] block with _ | mx <;>
      rcases hy : scanNum ['Y'] block with _ | my <;>
      rcases hz : scanNum ['Z'] block with _ | mz <;>
      simp only [hx, hy, hz] at hmiss ⊢ <;> try rfl
    simp at hmiss

/-- Counterexample to C5 as stated: the embedded-text shape returns a
non-finite `x_au` (the tolerant class matches `.` which parses to `NaN`)
without error, an all-zero structured vector is returned with zero
magnitude (so the magnitude is not positive), and a structured response
can return `vx` and `vz` without `vy` (velocity presence is not
all-or-none). -/
theorem claim_C5_parser_cex :
    ((parseVectorFromResult "earth" "now" textNaNResponse).map
      (fun v => v.x_au.isFinite)) = .ok false ∧
    ((parseStructuredVec "earth" "now"
        ⟨some "0", some "0", some "0", none, none, none, none⟩).map
      (fun v => (v.x_au, v.y_au, v.z_au))) = .ok (.num 0, .num 0, .num 0) ∧
    ((parseStructuredVec "earth" "now" structuredMixedVel).map
      (fun v => (v.vx_au_per_day.isSome, v.vy_au_per_day.isSome,
        v.vz_au_per_day.isSome))) = .ok (true, false, true) := by
  refine ⟨?_, ?_, ?_⟩ <;> with_unfolding_all rfl

/-- Witness for the amended C5: a response without the sentinel block is
rejected, and the mixed-velocity structured response keeps only finite
components. -/
theorem claim_C5_parser_witness :
    parseVectorFromResult "earth" "now" "no markers here" =
      .error "Réponse Horizons sans bloc SOE/EOE" ∧
    (∀ v, (parseStructuredVec "earth" "now" structuredMixedVel).map
        (fun r => r.vx_au_per_day) = .ok (some v) → v.isFinite = true) := by
  constructor
  · exact claim_C5_parser_guarantees.2.1 "earth" "now" "no markers here"
      (by with_unfolding_all rfl)
  · intro v hv
    rcases hres : parseStructuredVec "earth" "now" structuredMixedVel with e | res
    · rw [hres] at hv
      cases hv
    · rw [hres] at hv
      simp only [Except.map] at hv
      have hv' := Except.ok.inj hv
      exact (claim_C5_parser_guarantees.1 "earth" "now" structuredMixedVel res hres).2.2.2.1
        v hv'

/-- C6 (amended): for the handler shipped in `dist/routes/ephemeris.js`
(the version also appended to `src/index.ts`), `X-Horizons-Cache-Stale` is
`1` iff the cache state is `STALE` or `FROZEN` (else `0`), and
`X-Horizons-Frozen` is `1` iff the `frozenSnapshot` flag of the payload is set
(else `0`).  The older handler in `src/routes/ephemeris.ts` does not
satisfy this (see the counterexample). -/
theorem claim_C6_cache_state_headers
    (cfg : CacheConfig) (st0 : Store) (inflight : Option RefreshTask)
    (newTask : RefreshTask) (now : Int) (req : HttpReq) (out : HttpOut)
    (hout : out = handleSnapshotRequest cfg st0 inflight newTask now req) :
    ∀ res, (getSnapshot cfg ⟨forceRefreshOf req, req.requestId⟩
        st0 inflight newTask now).result = .ok res →
      getHeader out "X-Horizons-Cache-Stale" =
        some (if res.cacheState = .STALE ∨ res.cacheState = .FROZEN then "1" else "0") ∧
      getHeader out "X-Horizons-Frozen" =
        some (if res.payload.metadata.frozenSnapshot = some true then "1" else "0") := by
  subst hout
  intro res hres
  unfold handleSnapshotRequest
  simp only [hres]
  rcases hT : res.payload.metadata.responseTimeMs with _ | t <;>
    rcases hF : res.payload.metadata.frozenSnapshot with _ | b <;>
    (try rcases b) <;>
    rcases hS : res.cacheState <;>
    simp [getHeader, List.find?, boolTruthy, hT, hF, hS]

/-- Counterexample to C6 as stated for the handler written in
`src/routes/ephemeris.ts`: on a `FROZEN` response it sets
`X-Horizons-Cache-Stale` to `0` and never sets `X-Horizons-Frozen`. -/
theorem claim_C6_src_handler_cex :
    ((getSnapshot defaultCacheConfig ⟨false, none⟩
        ⟨false, none, some (recordAt 0 defaultCacheConfig)⟩ none
        (failTask (some "boom")) 999999).result.map (fun r =>
          (r.cacheState, r.payload.metadata.frozenSnapshot))) =
      .ok (CacheState.FROZEN, some true) ∧
    getHeader (handleSnapshotRequestSrc defaultCacheConfig
        ⟨false, none, some (recordAt 0 defaultCacheConfig)⟩ none
        (failTask (some "boom")) 999999 ⟨some "abc", .missing, .missing⟩)
      "X-Horizons-Cache-Stale" = some "0" ∧
    getHeader (handleSnapshotRequestSrc defaultCacheConfig
        ⟨false, none, some (recordAt 0 defaultCacheConfig)⟩ none
        (failTask (some "boom")) 999999 ⟨some "abc", .missing, .missing⟩)
      "X-Horizons-Frozen" = none := by
  refine ⟨?_, ?_, ?_⟩ <;> decide

/-- Witness for the amended C6: the dist handler on the same frozen
scenario sets both headers to `1`. -/
theorem claim_C6_cache_state_headers_witness :
    getHeader (handleSnapshotRequest defaultCacheConfig
        ⟨false, none, some (recordAt 0 defaultCacheConfig)⟩ none
        (failTask (some "boom")) 999999 ⟨some "abc", .missing, .missing⟩)
      "X-Horizons-Cache-Stale" = some "1" ∧
    getHeader (handleSnapshotRequest defaultCacheConfig
        ⟨false, none, some (recordAt 0 defaultCacheConfig)⟩ none
        (failTask (some "boom")) 999999 ⟨some "abc", .missing, .missing⟩)
      "X-Horizons-Frozen" = some "1" := by
  have h := claim_C6_cache_state_headers defaultCacheConfig
      ⟨false, none, some (recordAt 0 defaultCacheConfig)⟩ none
      (failTask (some "boom")) 999999 ⟨some "abc", .missing, .missing⟩
      (handleSnapshotRequest defaultCacheConfig
        ⟨false, none, some (recordAt 0 defaultCacheConfig)⟩ none
        (failTask (some "boom")) 999999 ⟨some "abc", .missing, .missing⟩) rfl
  rcases hres : (getSnapshot defaultCacheConfig
      ⟨forceRefreshOf ⟨some "abc", .missing, .missing⟩, some "abc"⟩
      ⟨false, none, some (recordAt 0 defaultCacheConfig)⟩ none
      (failTask (some "boom")) 999999).result with e | res
  · have hmap : ((getSnapshot defaultCacheConfig
        ⟨forceRefreshOf ⟨some "abc", .missing, .missing⟩, some "abc"⟩
        ⟨false, none, some (recordAt 0 defaultCacheConfig)⟩ none
        (failTask (some "boom")) 999999).result.map (fun r =>
          (r.cacheState, r.payload.metadata.frozenSnapshot))) =
        .ok (CacheState.FROZEN, some true) := by decide
    rw [hres] at hmap
    simp [Except.map] at hmap
  · have hfields : res.cacheState = CacheState.FROZEN ∧
        res.payload.metadata.frozenSnapshot = some true := by
      have hmap : ((getSnapshot defaultCacheConfig
          ⟨forceRefreshOf ⟨some "abc", .missing, .missing⟩, some "abc"⟩
          ⟨false, none, some (recordAt 0 defaultCacheConfig)⟩ none
          (failTask (some "boom")) 999999).result.map (fun r =>
            (r.cacheState, r.payload.metadata.frozenSnapshot))) =
          .ok (CacheState.FROZEN, some true) := by decide
      rw [hres] at hmap
      simp only [Except.map] at hmap
      have := Except.ok.inj hmap
      exact ⟨congrArg Prod.fst this, congrArg Prod.snd this⟩
    have hc := h res hres
    rw [hfields.1, hfields.2] at hc
    simpa using hc

/-- C7 (amended): decorating a cached payload returns a new snapshot whose
`bodies` and `timestamp` are the cached ones, and two decorations with
different correlation ids have identical `bodies`; serving from cache
leaves the store exactly as the read left it.  However the refresh path
does mutate the stored in-memory record after storing it: because
`record.payload` aliases the local `payload` object, the MISS decoration
assigned after `writeCache` is visible through the memory tier (the record
there carries `cacheStatus = "MISS"`), while the Redis copy, serialized
before the mutation, keeps the payload passed to the refresh. -/
theorem claim_C7_decoration_purity_and_mutation :
    (∀ p s b a id1 id2 w cfg,
      (decoratePayloadMetadata p s b a id1 w cfg).bodies = p.bodies ∧
      (decoratePayloadMetadata p s b a id1 w cfg).timestamp = p.timestamp ∧
      (decoratePayloadMetadata p s b a id1 w cfg).bodies =
        (decoratePayloadMetadata p s b a id2 w cfg).bodies) ∧
    (∀ cfg opts st0 inflight newTask now cached,
      opts.forceRefresh = false →
      (readCache st0).1 = some cached →
      (now - cached.cachedAt < cfg.ttl ∨ now - cached.cachedAt < cfg.ttl + cfg.sw) →
      (getSnapshot cfg opts st0 inflight newTask now).store = (readCache st0).2) ∧
    (∀ cfg st task p res st', task.build = .ok p →
      refreshSnapshot cfg st task = (.ok res, st') →
      st'.memory = some { payload := res.payload,
                          cachedAt := task.time,
                          expiresAt := task.time + cfg.ttl,
                          staleUntil := task.time + cfg.ttl + cfg.sw } ∧
      res.payload.metadata.cacheStatus = some "MISS" ∧
      (st.redisLive = true →
        st'.redis = some { payload := p,
                           cachedAt := task.time,
                           expiresAt := task.time + cfg.ttl,
                           staleUntil := task.time + cfg.ttl + cfg.sw })) := by
  refine ⟨?_, ?_, ?_⟩
  · intro p s b a id1 id2 w cfg
    exact ⟨rfl, rfl, rfl⟩
  · intro cfg opts st0 inflight newTask now cached hforce hrc hserve
    by_cases hfr : now - cached.cachedAt < cfg.ttl
    · rw [getSnapshot_hit hforce hrc hfr]
    · have hin : now - cached.cachedAt < cfg.ttl + cfg.sw := by
        rcases hserve with h | h
        · exact absurd h hfr
        · exact h
      rw [getSnapshot_stale hforce hrc (by omega) hin]
  · intro cfg st task p res st' hb heq
    unfold refreshSnapshot at heq
    rw [hb] at heq
    simp only at heq
    have h1 := congrArg Prod.fst heq
    have h2 := congrArg Prod.snd heq
    simp only at h1 h2
    have hres := Except.ok.inj h1
    subst hres
    subst h2
    refine ⟨rfl, rfl, ?_⟩
    intro hlive
    unfold writeCache backendOf
    simp [hlive]

/-- Counterexample to C7 as stated: after a successful refresh, the record
held by the memory tier is no longer the record that `writeCache` stored —
its payload metadata now carries the MISS decoration — while the
Redis-serialized copy still is that record.  The stored record was thus
mutated after being stored. -/
theorem claim_C7_refresh_mutation_cex :
    (refreshSnapshot defaultCacheConfig ⟨true, none, none⟩ okTask).2.redis =
      some { payload := basePayload, cachedAt := 500,
             expiresAt := 120500, staleUntil := 180500 } ∧
    (refreshSnapshot defaultCacheConfig ⟨true, none, none⟩ okTask).2.memory ≠
      some { payload := basePayload, cachedAt := 500,
             expiresAt := 120500, staleUntil := 180500 } ∧
    ((refreshSnapshot defaultCacheConfig ⟨true, none, none⟩ okTask).2.memory.map
      (fun r => r.payload.metadata.cacheStatus)) = some (some "MISS") := by
  refine ⟨?_, ?_, ?_⟩ <;> decide

/-- Witness for the amended C7 at the concrete refresh of `okTask`. -/
theorem claim_C7_decoration_witness :
    ∃ res st',
      refreshSnapshot defaultCacheConfig ⟨true, none, none⟩ okTask = (.ok res, st') ∧
      st'.memory = some { payload := res.payload, cachedAt := 500,
                          expiresAt := 120500, staleUntil := 180500 } ∧
      res.payload.metadata.cacheStatus = some "MISS" ∧
      st'.redis = some { payload := basePayload, cachedAt := 500,
                         expiresAt := 120500, staleUntil := 180500 } := by
  rcases heq : refreshSnapshot defaultCacheConfig ⟨true, none, none⟩ okTask with ⟨r, st'⟩
  rcases r with e | res
  · have : (refreshSnapshot defaultCacheConfig ⟨true, none, none⟩ okTask).1.isOk = true := by
      decide
    rw [heq] at this
    cases this
  · have h := claim_C7_decoration_purity_and_mutation.2.2 defaultCacheConfig
      ⟨true, none, none⟩ okTask basePayload res st' rfl heq
    exact ⟨res, st', rfl, h.1, h.2.1, h.2.2 rfl⟩

/-- C8: in the embedded-text shape, when the detected `Output units` string
contains `KM` case-insensitively (`kmDetected`), every position component
is the parsed value divided by `149597870.7`, and every present velocity
component is the parsed value multiplied by `86400` and divided by
`149597870.7`; otherwise all values are taken unchanged.  Components whose
pattern does not match stay absent. -/
theorem claim_C8_unit_conversion
    (name nowIso t : String) (block : List Char) (res : PlanetStateVector)
    (hb : soeBlock t = some block)
    (h : parseVectorFromResult name nowIso t = .ok res) :
    kmDetected t = ((detectRawUnit t).map
      (fun u => containsSub "KM".data (upperString u).data)).getD false ∧
    (∀ mx, scanNum ['X'] block = some mx →
      res.x_au = if kmDetected t = true
        then jsDiv (parseFloatJs (String.mk mx)) (.num (1495978707 / 10))
        else parseFloatJs (String.mk mx)) ∧
    (∀ my, scanNum ['Y'] block = some my →
      res.y_au = if kmDetected t = true
        then jsDiv (parseFloatJs (String.mk my)) (.num (1495978707 / 10))
        else parseFloatJs (String.mk my)) ∧
    (∀ mz, scanNum ['Z'] block = some mz →
      res.z_au = if kmDetected t = true
        then jsDiv (parseFloatJs (String.mk mz)) (.num (1495978707 / 10))
        else parseFloatJs (String.mk mz)) ∧
    (∀ m, scanNum "VX".data block = some m →
      res.vx_au_per_day = some (if kmDetected t = true
        then jsDiv (jsMul (parseFloatJs (String.mk m)) (.num 86400)) (.num (1495978707 / 10))
        else parseFloatJs (String.mk m))) ∧
    (scanNum "VX".data block = none → res.vx_au_per_day = none) ∧
    (∀ m, scanNum "VY".data block = some m →
      res.vy_au_per_day = some (if kmDetected t = true
        then jsDiv (jsMul (parseFloatJs (String.mk m)) (.num 86400)) (.num (1495978707 / 10))
        else parseFloatJs (String.mk m))) ∧
    (scanNum "VY".data block = none → res.vy_au_per_day = none) ∧
    (∀ m, scanNum "VZ".data block = some m →
      res.vz_au_per_day = some (if kmDetected t = true
        then jsDiv (jsMul (parseFloatJs (String.mk m)) (.num 86400)) (.num (1495978707 / 10))
        else parseFloatJs (String.mk m))) ∧
    (scanNum "VZ".data block = none → res.vz_au_per_day = none) := by
  have hau : AU_IN_KM = (1495978707 : ℚ) / 10 := rfl
  have hsec : SECONDS_PER_DAY = (86400 : ℚ) := rfl
  simp only [parseVectorFromResult, hb] at h
  split at h
  · rename_i mx my mz hx hy hz
    have hres := Except.ok.inj h
    subst hres
    refine ⟨?_, ?_, ?_, ?_, ?_, ?_, ?_, ?_, ?_, ?_⟩
    · rcases hdu : detectRawUnit t with _ | u <;> simp [kmDetected, hdu]
    · intro m hm
      have hmx := Option.some.inj (hx.symm.trans hm)
      subst hmx
      by_cases hkm : kmDetected t = true <;> simp [toAu, hkm, hau]
    · intro m hm
      have hmy := Option.some.inj (hy.symm.trans hm)
      subst hmy
      by_cases hkm : kmDetected t = true <;> simp [toAu, hkm, hau]
    · intro m hm
      have hmz := Option.some.inj (hz.symm.trans hm)
      subst hmz
      by_cases hkm : kmDetected t = true <;> simp [toAu, hkm, hau]
    · intro m hm
      simp only [hm, Option.map]
      by_cases hkm : kmDetected t = true <;> simp [toAuPerDay, hkm, hau, hsec]
    · intro hm
      simp [hm]
    · intro m hm
      simp only [hm, Option.map]
      by_cases hkm : kmDetected t = true <;> simp [toAuPerDay, hkm, hau, hsec]
    · intro hm
      simp [hm]
    · intro m hm
      simp only [hm, Option.map]
      by_cases hkm : kmDetected t = true <;> simp [toAuPerDay, hkm, hau, hsec]
    · intro hm
      simp [hm]
  · simp at h

/-- Witness for C8: with declared `KM-S` units the position is divided by
`149597870.7`; with no unit declaration the velocity is passed through. -/
theorem claim_C8_unit_conversion_witness :
    ((parseVectorFromResult "earth" "now" textKmResponse).map (fun v => v.x_au)) =
      .ok (jsDiv (parseFloatJs "2") (.num (1495978707 / 10))) ∧
    ((parseVectorFromResult "earth" "now" textAuResponse).map (fun v => v.vx_au_per_day)) =
      .ok (some (parseFloatJs "1")) := by
  constructor
  · rcases hres : parseVectorFromResult "earth" "now" textKmResponse with e | res
    · have hh : (parseVectorFromResult "earth" "now" textKmResponse).map
          (fun v => v.name) = .ok "earth" := by decide
      rw [hres] at hh
      simp [Except.map] at hh
    · have hb : soeBlock textKmResponse =
          some ("$$SOE\nX = 2 Y = 4 Z = 6 VX= 1\n").data := by decide
      have h := claim_C8_unit_conversion "earth" "now" textKmResponse
        (("$$SOE\nX = 2 Y = 4 Z = 6 VX= 1\n").data) res hb hres
      have hx : scanNum ['X'] (("$$SOE\nX = 2 Y = 4 Z = 6 VX= 1\n").data) =
          some ['2'] := by decide
      have hxx := h.2.1 ['2'] hx
      have hkm : kmDetected textKmResponse = true := by with_unfolding_all rfl
      have hstr : String.mk ['2'] = "2" := by decide
      simp only [Except.map]
      rw [hxx]
      simp [hkm, hstr]
  · rcases hres : parseVectorFromResult "earth" "now" textAuResponse with e | res
    · have hh : (parseVectorFromResult "earth" "now" textAuResponse).map
          (fun v => v.name) = .ok "earth" := by decide
      rw [hres] at hh
      simp [Except.map] at hh
    · have hb : soeBlock textAuResponse =
          some ("$$SOE\nX = 2 Y = 4 Z = 6 VX= 1\n").data := by decide
      have h := claim_C8_unit_conversion "earth" "now" textAuResponse
        (("$$SOE\nX = 2 Y = 4 Z = 6 VX= 1\n").data) res hb hres
      have hvx : scanNum "VX".data (("$$SOE\nX = 2 Y = 4 Z = 6 VX= 1\n").data) =
          some ['1'] := by decide
      have hxx := h.2.2.2.2.1 ['1'] hvx
      have hkm : kmDetected textAuResponse = false := by with_unfolding_all rfl
      have hstr : String.mk ['1'] = "1" := by decide
      simp only [Except.map]
      rw [hxx]
      simp [hkm, hstr]

/-- C9 (amended): on an unrecovered refresh failure the planets snapshot
routes respond `500` with a JSON body containing a non-empty error string
but no `requestId` property; the correlation id is not part of the planets
routes (it is only logged and exposed through the `X-Request-Id` response
header set by the tracing middleware). -/
theorem claim_C9_error_body
    (cfg : CacheConfig) (st0 : Store) (inflight : Option RefreshTask)
    (newTask : RefreshTask) (now : Int) (req : HttpReq) (out outSrc : HttpOut)
    (e : JsError)
    (hout : out = handleSnapshotRequest cfg st0 inflight newTask now req)
    (houtSrc : outSrc = handleSnapshotRequestSrc cfg st0 inflight newTask now req)
    (he : (getSnapshot cfg ⟨forceRefreshOf req, req.requestId⟩
      st0 inflight newTask now).result = .error e)
    (heSrc : (getSnapshot cfg ⟨forceRefreshOf req, none⟩
      st0 inflight newTask now).result = .error e) :
    out.status = 500 ∧
    out.bodyErr = some ⟨"Erreur lors de la récupération des éphémérides", none⟩ ∧
    outSrc.status = 500 ∧
    outSrc.bodyErr = some ⟨"Erreur lors de la récupération des éphémérides", none⟩ ∧
    "Erreur lors de la récupération des éphémérides" ≠ "" := by
  subst hout
  subst houtSrc
  unfold handleSnapshotRequest handleSnapshotRequestSrc
  simp [he, heSrc]

/-- Counterexample to C9 as stated: both versions of the planets snapshot
handler answer a failed refresh with a body whose `requestId` property is
absent, although the request carried the correlation id `abc`. -/
theorem claim_C9_error_body_cex :
    (handleSnapshotRequest defaultCacheConfig ⟨false, none, none⟩ none
        (failTask (some "boom")) 1000 ⟨some "abc", .missing, .missing⟩).bodyErr =
      some ⟨"Erreur lors de la récupération des éphémérides", none⟩ ∧
    (handleSnapshotRequest defaultCacheConfig ⟨false, none, none⟩ none
        (failTask (some "boom")) 1000 ⟨some "abc", .missing, .missing⟩).status = 500 ∧
    (handleSnapshotRequestSrc defaultCacheConfig ⟨false, none, none⟩ none
        (failTask (some "boom")) 1000 ⟨some "abc", .missing, .missing⟩).bodyErr =
      some ⟨"Erreur lors de la récupération des éphémérides", none⟩ := by
  refine ⟨?_, ?_, ?_⟩ <;> decide

/-- Witness for the amended C9 on a concrete failing refresh. -/
theorem claim_C9_error_body_witness :
    (handleSnapshotRequest defaultCacheConfig ⟨false, none, none⟩ none
        (failTask (some "boom")) 1000 ⟨some "abc", .missing, .missing⟩).status = 500 ∧
    (handleSnapshotRequest defaultCacheConfig ⟨false, none, none⟩ none
        (failTask (some "boom")) 1000 ⟨some "abc", .missing, .missing⟩).bodyErr =
      some ⟨"Erreur lors de la récupération des éphémérides", none⟩ := by
  have h := claim_C9_error_body defaultCacheConfig ⟨false, none, none⟩ none
    (failTask (some "boom")) 1000 ⟨some "abc", .missing, .missing⟩
    (handleSnapshotRequest defaultCacheConfig ⟨false, none, none⟩ none
      (failTask (some "boom")) 1000 ⟨some "abc", .missing, .missing⟩)
    (handleSnapshotRequestSrc defaultCacheConfig ⟨false, none, none⟩ none
      (failTask (some "boom")) 1000 ⟨some "abc", .missing, .missing⟩)
    ⟨some "boom"⟩ rfl rfl (by decide) (by decide)
  exact ⟨h.1, h.2.1⟩

theorem symTruthy_eq_false {r : Option SymReal} :
    symTruthy r = false ↔ (r = none ∨ ∃ s, r = some s ∧ s.isZero = true) := by
  rcases r with _ | s
  · simp [symTruthy]
  · simp [symTruthy]

/-- C10: the voyagers route guards every division by treating zero as
missing: `computeTrajectory` returns null ecliptic latitude/longitude
whenever the position magnitude is zero or null, null velocity angles
whenever the speed is zero or null, and the km/miles conversions
(`distanceKm`, `distanceMiles`, `distanceEarthKm`, `distanceEarthMiles`)
are null — not zero — whenever the corresponding AU distance is zero or
null. -/
theorem claim_C10_zero_guards :
    (∀ px py pz vx vy vz,
      (magnitudeV (some px) (some py) (some pz) = none ∨
        (∃ r, magnitudeV (some px) (some py) (some pz) = some r ∧ r.isZero = true)) →
      (computeTrajectory px py pz vx vy vz).eclipticLatDeg = none ∧
      (computeTrajectory px py pz vx vy vz).eclipticLonDeg = none) ∧
    (∀ px py pz vx vy vz,
      (magnitudeV vx vy vz = none ∨
        (∃ r, magnitudeV vx vy vz = some r ∧ r.isZero = true)) →
      (computeTrajectory px py pz vx vy vz).velocityAzimuthDeg = none ∧
      (computeTrajectory px py pz vx vy vz).velocityLatDeg = none) ∧
    (∀ vec earth,
      ((computeVoyagerEntry vec earth).distAu = none ∨
        (∃ r, (computeVoyagerEntry vec earth).distAu = some r ∧ r.isZero = true)) →
      (computeVoyagerEntry vec earth).distanceKm = none ∧
      (computeVoyagerEntry vec earth).distanceMiles = none) ∧
    (∀ vec earth,
      ((computeVoyagerEntry vec earth).distEarthAu = none ∨
        (∃ r, (computeVoyagerEntry vec earth).distEarthAu = some r ∧ r.isZero = true)) →
      (computeVoyagerEntry vec earth).distanceEarthKm = none ∧
      (computeVoyagerEntry vec earth).distanceEarthMiles = none) := by
  refine ⟨?_, ?_, ?_, ?_⟩
  · intro px py pz vx vy vz hz
    rcases hz with hz | ⟨r, hr, hrz⟩
    · constructor <;> (delta computeTrajectory; simp [hz])
    · constructor <;> (delta computeTrajectory; simp [hr, hrz])
  · intro px py pz vx vy vz hz
    rcases hz with hz | ⟨r, hr, hrz⟩
    · constructor <;> (delta computeTrajectory; simp [hz])
    · constructor <;>
        (delta computeTrajectory
         rcases vx with _ | vxv <;> rcases vy with _ | vyv <;> rcases vz with _ | vzv <;>
           simp [hr, hrz])
  · intro vec earth hz
    have hf : symTruthy (magnitudeV (some vec.x_au) (some vec.y_au) (some vec.z_au)) = false :=
      symTruthy_eq_false.mpr hz
    have hf' := hf
    simp only [symTruthy] at hf'
    constructor
    · simp [computeVoyagerEntry, hf, hf']
    · simp [computeVoyagerEntry, hf, hf', symTruthy]
  · intro vec earth hz
    have hf : symTruthy (deltaMagnitude (some vec.x_au) (some vec.y_au) (some vec.z_au)
        (earth.map (fun b => b.x_au)) (earth.map (fun b => b.y_au))
        (earth.map (fun b => b.z_au))) = false :=
      symTruthy_eq_false.mpr hz
    have hf' := hf
    simp only [symTruthy] at hf'
    constructor
    · simp [computeVoyagerEntry, hf, hf']
    · simp [computeVoyagerEntry, hf, hf', symTruthy]

/-- Witness for C10: a probe at the origin with zero velocity yields null
angles and null distance conversions. -/
theorem claim_C10_zero_guards_witness :
    ((computeTrajectory (.num 0) (.num 0) (.num 0)
        (some (.num 0)) (some (.num 0)) (some (.num 0))).eclipticLatDeg = none ∧
      (computeTrajectory (.num 0) (.num 0) (.num 0)
        (some (.num 0)) (some (.num 0)) (some (.num 0))).eclipticLonDeg = none) ∧
    ((computeVoyagerEntry ⟨"v", .num 0, .num 0, .num 0, none, none, none,
        none, none, none, "ts"⟩ none).distanceKm = none ∧
      (computeVoyagerEntry ⟨"v", .num 0, .num 0, .num 0, none, none, none,
        none, none, none, "ts"⟩ none).distanceMiles = none) := by
  constructor
  · exact claim_C10_zero_guards.1 (.num 0) (.num 0) (.num 0)
      (some (.num 0)) (some (.num 0)) (some (.num 0))
      (Or.inr ⟨⟨0, 1⟩, by norm_num [magnitudeV], by norm_num [SymReal.isZero]⟩)
  · exact claim_C10_zero_guards.2.2.1
      ⟨"v", .num 0, .num 0, .num 0, none, none, none, none, none, none, "ts"⟩ none
      (Or.inr ⟨⟨0, 1⟩, by norm_num [computeVoyagerEntry, magnitudeV], by norm_num [SymReal.isZero]⟩)
